import Mathlib

/-
Verification development for the BGCS backend (entities, state manager,
simulation engine).  The Python source is shallowly embedded: floats are
modelled as rationals, Python's `** 0.5` square root by `ratSqrt` (exact on
rational perfect squares, a rational upper bound otherwise), trigonometric
functions by an abstract `Trig` record, `random.uniform` draws and
`time.time()` values by explicit parameters, and in-place mutation by
functional state passing.
-/

set_option maxHeartbeats 1000000

namespace BGCS

/-- Fuel-driven integer square root search (kernel-reducible): largest `r`
reached from `r0` by unit steps while `(r+1)^2 ≤ m`. -/
def isqrtAux (m : ℕ) : ℕ → ℕ → ℕ
  | 0, r => r
  | fuel + 1, r => if (r + 1) * (r + 1) ≤ m then isqrtAux m fuel (r + 1) else r

/-- Integer square root: `⌊√m⌋`. -/
def isqrt (m : ℕ) : ℕ := isqrtAux m m 0

theorem isqrtAux_sq_le (m : ℕ) :
    ∀ (fuel r : ℕ), r * r ≤ m → isqrtAux m fuel r * isqrtAux m fuel r ≤ m := by
  intro fuel
  induction fuel with
  | zero => intro r h; simpa [isqrtAux] using h
  | succ n ih =>
    intro r h
    unfold isqrtAux
    split
    · exact ih (r + 1) (by assumption)
    · exact h

theorem isqrtAux_lt_succ_sq (m : ℕ) :
    ∀ (fuel r : ℕ), m < (r + fuel + 1) * (r + fuel + 1) →
      m < (isqrtAux m fuel r + 1) * (isqrtAux m fuel r + 1) := by
  intro fuel
  induction fuel with
  | zero => intro r h; simpa [isqrtAux] using h
  | succ n ih =>
    intro r h
    unfold isqrtAux
    split_ifs with hcond
    · refine ih (r + 1) ?_
      have e : r + 1 + n + 1 = r + (n + 1) + 1 := by omega
      rw [e]; exact h
    · exact Nat.lt_of_not_le hcond

theorem isqrt_sq_le (m : ℕ) : isqrt m * isqrt m ≤ m :=
  isqrtAux_sq_le m m 0 (by omega)

theorem lt_succ_isqrt_sq (m : ℕ) : m < (isqrt m + 1) * (isqrt m + 1) :=
  isqrtAux_lt_succ_sq m m 0 (by nlinarith)

/-- Model of the real square root on rationals: exact whenever the argument
is the square of a rational, otherwise the rational `(isqrt(num*den)+1)/den`,
a strict upper bound of the real root.  Nonpositive arguments map to 0 (they
never arise from the sums of squares the source takes roots of). -/
def ratSqrt (q : ℚ) : ℚ :=
  if q ≤ 0 then 0
  else if isqrt (q.num.toNat * q.den) * isqrt (q.num.toNat * q.den) = q.num.toNat * q.den
  then (isqrt (q.num.toNat * q.den) : ℚ) / (q.den : ℚ)
  else ((isqrt (q.num.toNat * q.den) : ℚ) + 1) / (q.den : ℚ)

theorem ratSqrt_nonneg (q : ℚ) : 0 ≤ ratSqrt q := by
  unfold ratSqrt
  split_ifs <;> positivity

theorem cast_num_toNat_mul_den (q : ℚ) (hq : 0 ≤ q) :
    ((q.num.toNat * q.den : ℕ) : ℚ) = q * (q.den : ℚ) * (q.den : ℚ) := by
  have hn : (0 : ℤ) ≤ q.num := Rat.num_nonneg.mpr hq
  have hnum_eq : (q.num : ℚ) = q * (q.den : ℚ) := by
    have hden : ((q.den : ℚ)) ≠ 0 := by
      exact_mod_cast q.den_pos.ne'
    field_simp [Rat.num_div_den q]
  have htn : ((q.num.toNat : ℕ) : ℚ) = (q.num : ℚ) := by
    exact_mod_cast congrArg (fun z : ℤ => (z : ℚ)) (Int.toNat_of_nonneg hn)
  push_cast
  rw [htn, hnum_eq]

theorem le_sq_ratSqrt (q : ℚ) (hq : 0 ≤ q) : q ≤ (ratSqrt q) ^ 2 := by
  unfold ratSqrt
  split_ifs with h1 h2
  · have : q = 0 := le_antisymm h1 hq
    simp [this]
  · have hden : (0 : ℚ) < (q.den : ℚ) := by exact_mod_cast q.den_pos
    have hm := cast_num_toNat_mul_den q hq
    have hsq : ((isqrt (q.num.toNat * q.den) : ℚ)) * (isqrt (q.num.toNat * q.den) : ℚ)
        = q * (q.den : ℚ) * (q.den : ℚ) := by
      rw [← hm]
      exact_mod_cast congrArg (Nat.cast (R := ℚ)) h2
    rw [div_pow, le_div_iff₀ (by positivity)]
    nlinarith [hsq]
  · have hden : (0 : ℚ) < (q.den : ℚ) := by exact_mod_cast q.den_pos
    have hm := cast_num_toNat_mul_den q hq
    have hlt : ((q.num.toNat * q.den : ℕ) : ℚ)
        < ((isqrt (q.num.toNat * q.den) : ℚ) + 1) * ((isqrt (q.num.toNat * q.den) : ℚ) + 1) := by
      exact_mod_cast lt_succ_isqrt_sq (q.num.toNat * q.den)
    rw [hm] at hlt
    rw [div_pow, le_div_iff₀ (by positivity)]
    nlinarith [hlt]

theorem sq_le_of_ratSqrt_le {q r : ℚ} (hq : 0 ≤ q) (h : ratSqrt q ≤ r) : q ≤ r ^ 2 := by
  have h1 := le_sq_ratSqrt q hq
  have h2 := ratSqrt_nonneg q
  nlinarith

theorem lt_ratSqrt_of_sq_lt {q r : ℚ} (hr : 0 ≤ r) (h : r ^ 2 < q) : r < ratSqrt q := by
  have hq : (0 : ℚ) ≤ q := le_trans (sq_nonneg r) h.le
  have h1 := le_sq_ratSqrt q hq
  have h2 := ratSqrt_nonneg q
  nlinarith

/-- 3D vector (source: `Vector3` in `entities/base.py`); floats as rationals. -/
structure Vector3 where
  x : ℚ
  y : ℚ
  z : ℚ
deriving DecidableEq

instance : Add Vector3 := ⟨fun a b => ⟨a.x + b.x, a.y + b.y, a.z + b.z⟩⟩
instance : Sub Vector3 := ⟨fun a b => ⟨a.x - b.x, a.y - b.y, a.z - b.z⟩⟩

/-- Scalar multiplication (source: `Vector3.__mul__`). -/
def Vector3.smul (v : Vector3) (c : ℚ) : Vector3 := ⟨v.x * c, v.y * c, v.z * c⟩

/-- Sum of squared components (helper; the source computes `magnitude` as its
real square root). -/
def Vector3.sq_magnitude (v : Vector3) : ℚ := v.x ^ 2 + v.y ^ 2 + v.z ^ 2

/-- Source: `Vector3.magnitude` — `(x**2 + y**2 + z**2) ** 0.5`. -/
def Vector3.magnitude (v : Vector3) : ℚ := ratSqrt v.sq_magnitude

/-- Source: `Vector3.normalize` — zero magnitude yields the zero vector. -/
def Vector3.normalize (v : Vector3) : Vector3 :=
  if v.magnitude = 0 then ⟨0, 0, 0⟩
  else ⟨v.x / v.magnitude, v.y / v.magnitude, v.z / v.magnitude⟩

/-- Source: `Vector3.distance_to` — `(other - self).magnitude()`. -/
def Vector3.distance_to (v other : Vector3) : ℚ := (other - v).magnitude

theorem sq_magnitude_nonneg (v : Vector3) : 0 ≤ v.sq_magnitude := by
  unfold Vector3.sq_magnitude; positivity

/-- Rational stand-in for `math.pi` (only its role as the angle-normalisation
constant matters to the claims; no theorem depends on its numeric value). -/
def piQ : ℚ := 314159265358979 / 100000000000000

/-- Abstract interpretation of the trigonometric functions used by the
behaviour code (`math.cos`, `math.sin`, `math.atan2`).  Theorems that need
real-trig facts assume the pointwise Pythagorean identity `PythTrig`. -/
structure Trig where
  cos : ℚ → ℚ
  sin : ℚ → ℚ
  atan2 : ℚ → ℚ → ℚ

/-- Pointwise Pythagorean identity for an abstract `Trig` interpretation
(true of the real `cos`/`sin`, and satisfiable over ℚ). -/
def PythTrig (tr : Trig) : Prop := ∀ θ : ℚ, tr.cos θ ^ 2 + tr.sin θ ^ 2 = 1

/-- Closed form of the source's two angle-normalisation `while` loops
(`while diff > pi: diff -= 2*pi`, then `while diff < -pi: diff += 2*pi`):
the first loop runs `⌈(q-pi)/(2*pi)⌉` times and leaves a value in `(-pi, pi]`,
so the second loop never runs after the first, and symmetrically. -/
def normAngle (q : ℚ) : ℚ :=
  if q > piQ then q - 2 * piQ * ((⌈(q - piQ) / (2 * piQ)⌉ : ℤ) : ℚ)
  else if q < -piQ then q + 2 * piQ * ((⌈(-q - piQ) / (2 * piQ)⌉ : ℤ) : ℚ)
  else q

/-- Base entity state (source: `Entity.__init__` in `entities/base.py`).
The `sort_index` attribute is created dynamically by
`StateManager.add_entity`/`set_entity_order`, hence an `Option`.
`created_time`/`last_update_time` are `time.time()` values. -/
structure Entity where
  id : String
  entity_type : String
  position : Vector3
  heading : ℚ
  velocity : Vector3
  max_speed : ℚ
  detection_radius : ℚ
  collision_radius : ℚ
  health : ℚ
  detected : Bool
  selected : Bool
  destroyed : Bool
  target_position : Vector3
  waypoints : List Vector3
  current_mode : String
  created_time : ℚ
  last_update_time : ℚ
  sort_index : Option ℕ
deriving DecidableEq

/-- Source: `Entity.__init__` (defaults); `now` models the two `time.time()`
calls, `eid` the already-resolved id (`entity_id or str(uuid.uuid4())`). -/
def Entity.init (eid : String) (pos : Vector3) (now : ℚ) : Entity where
  id := eid
  entity_type := "entity"
  position := pos
  heading := 0
  velocity := ⟨0, 0, 0⟩
  max_speed := 10
  detection_radius := 100
  collision_radius := 5
  health := 1
  detected := false
  selected := false
  destroyed := false
  target_position := ⟨0, 0, 0⟩
  waypoints := []
  current_mode := "idle"
  created_time := now
  last_update_time := now
  sort_index := none

/-- Source: `Entity.update` — stamp `last_update_time`, then (if not
destroyed) apply `velocity * dt` to the position and clamp the velocity to
`max_speed`. -/
def Entity.update (now dt : ℚ) (e : Entity) : Entity :=
  let e := { e with last_update_time := now }
  if e.destroyed then e
  else
    let e := { e with position := e.position + e.velocity.smul dt }
    if e.velocity.magnitude > e.max_speed
    then { e with velocity := e.velocity.normalize.smul e.max_speed }
    else e

/-- Source: `Entity.take_damage` — `health = max(0, health - damage)`;
destroyed is set (never cleared) when the new health is ≤ 0. -/
def Entity.take_damage (damage : ℚ) (e : Entity) : Entity :=
  let h := max 0 (e.health - damage)
  { e with health := h, destroyed := if h ≤ 0 then true else e.destroyed }

/-- Source: `Entity.heal` — no-op on a destroyed entity, else
`health = min(1, health + amount)`. -/
def Entity.heal (amount : ℚ) (e : Entity) : Entity :=
  if e.destroyed then e else { e with health := min 1 (e.health + amount) }

/-- Drone-specific state (source: `Drone.__init__` in `entities/drone.py`).
The `Entity` fields it overrides live in the shared `Entity` record. -/
structure DroneExt where
  target_entity_id : Option String
  teammate_entity_id : Option String
  follow_distance : ℚ
  kamikaze_enabled : Bool
  hunting_range : ℚ
  turn_rate : ℚ
  approach_threshold : ℚ
  patrol_area_size : ℚ
  last_random_target_time : ℚ
  random_target_interval : ℚ
  engagement_range : ℚ
deriving DecidableEq

/-- Source: `Drone.__init__` — base entity with drone overrides
(`max_speed=25`, `detection_radius=150`, `collision_radius=3`, default mode
`random_search`) plus the drone-only fields (turn rate `math.pi` ≈ `piQ`). -/
def Drone.init (eid : String) (pos : Vector3) (now : ℚ) : Entity × DroneExt :=
  ({ Entity.init eid pos now with
      entity_type := "drone"
      max_speed := 25
      detection_radius := 150
      collision_radius := 3
      current_mode := "random_search" },
   { target_entity_id := none
     teammate_entity_id := none
     follow_distance := 20
     kamikaze_enabled := true
     hunting_range := 200
     turn_rate := piQ
     approach_threshold := 5
     patrol_area_size := 100
     last_random_target_time := 0
     random_target_interval := 10
     engagement_range := 10 })

/-- Target-specific state (source: `Target.__init__` in `entities/target.py`). -/
structure TargetExt where
  observed_velocity : Vector3
  last_seen_time : ℚ
  confidence : ℚ
  role : String
  affiliation : String
  is_moving : Bool
  is_targeted : Bool
  patrol_speed : ℚ
  turn_rate : ℚ
  approach_threshold : ℚ
  last_micro_movement : ℚ
  patrol_waypoint_timer : ℚ
  patrol_waypoint_interval : ℚ
  detection_time : ℚ
  detection_count : ℕ
deriving DecidableEq

/-- Source: `Target.__init__` — base entity with target overrides
(`max_speed=15`, `detection_radius=50`, `collision_radius=4`, default mode
`hold_position`) plus the target-only fields
(`_last_micro_movement = time.time()`). -/
def Target.init (eid : String) (pos : Vector3) (now : ℚ) : Entity × TargetExt :=
  ({ Entity.init eid pos now with
      entity_type := "target"
      max_speed := 15
      detection_radius := 50
      collision_radius := 4
      current_mode := "hold_position" },
   { observed_velocity := ⟨0, 0, 0⟩
     last_seen_time := 0
     confidence := 0
     role := "unknown"
     affiliation := "hostile"
     is_moving := false
     is_targeted := false
     patrol_speed := 5
     turn_rate := 1
     approach_threshold := 10
     last_micro_movement := now
     patrol_waypoint_timer := 0
     patrol_waypoint_interval := 30
     detection_time := 0
     detection_count := 0 })

/-- A stored entity: the Python object is an instance of `Entity`, `Drone`
or `Target`; the extension records carry the subclass-only attributes. -/
inductive MEntity where
  | base (e : Entity)
  | drone (e : Entity) (d : DroneExt)
  | target (e : Entity) (t : TargetExt)
deriving DecidableEq

/-- The shared `Entity` attributes of a stored entity. -/
def MEntity.core : MEntity → Entity
  | .base e => e
  | .drone e _ => e
  | .target e _ => e

/-- Replace the shared `Entity` attributes, keeping subclass attributes. -/
def MEntity.withCore : MEntity → Entity → MEntity
  | .base _, e => .base e
  | .drone _ d, e => .drone e d
  | .target _ t, e => .target e t

/-- Source: `take_damage` on a stored entity (mutates the shared attributes). -/
def MEntity.take_damage (damage : ℚ) (m : MEntity) : MEntity :=
  m.withCore (m.core.take_damage damage)

/-- Simulation event (source: `SimulationEvent` in `state/manager.py`).
The free-form `data` payload is not modelled; no claim inspects it. -/
structure Event where
  timestamp : ℚ
  event_type : String
  entity_id : Option String
deriving DecidableEq

/-- Source: the `stats` dictionary of `StateManager.__init__`. -/
structure Stats where
  entities_created : ℕ
  entities_destroyed : ℕ
  events_logged : ℕ
  messages_sent : ℕ
deriving DecidableEq

/-- The state owned by `StateManager` that the claims touch.  `entities` is
the insertion-ordered `Dict[str, Entity]` as an association list; groups,
chat messages, terrain and the fps counters are not modelled (no claim
touches them).  `entity_order` is the persistent sort-index map. -/
structure StateManager where
  entities : List (String × MEntity)
  selected_entities : List String
  events : List Event
  stats : Stats
  simulation_running : Bool
  simulation_speed : ℚ
  simulation_time : ℚ
  entity_order : List (String × ℕ)
deriving DecidableEq

/-- An empty manager (source: `StateManager.__init__` with no persisted
class-level order state). -/
def StateManager.empty : StateManager where
  entities := []
  selected_entities := []
  events := []
  stats := ⟨0, 0, 0, 0⟩
  simulation_running := false
  simulation_speed := 1
  simulation_time := 0
  entity_order := []

/-- Python `dict` lookup on the insertion-ordered association list. -/
def lookupEnt : List (String × MEntity) → String → Option MEntity
  | [], _ => none
  | (k, v) :: rest, i => if k = i then some v else lookupEnt rest i

/-- Python `dict` store: overwrite in place if present, else append. -/
def storeEnt : List (String × MEntity) → String → MEntity → List (String × MEntity)
  | [], i, m => [(i, m)]
  | (k, v) :: rest, i, m =>
      if k = i then (k, m) :: rest else (k, v) :: storeEnt rest i m

/-- Apply `f` to the entity stored under `i` (in-place object mutation). -/
def modifyEnt : List (String × MEntity) → String → (MEntity → MEntity) →
    List (String × MEntity)
  | [], _, _ => []
  | (k, v) :: rest, i, f =>
      (if k = i then (k, f v) else (k, v)) :: modifyEnt rest i f

/-- Association-list lookup for the persistent entity order. -/
def lookupOrder : List (String × ℕ) → String → Option ℕ
  | [], _ => none
  | (k, v) :: rest, i => if k = i then some v else lookupOrder rest i

/-- Source: `StateManager.log_event` — builds an event stamped with
`time.time()`, appends to the `deque(maxlen=1000)` (oldest evicted first)
and bumps the counter. -/
def StateManager.log_event (s : StateManager) (now : ℚ) (ty : String)
    (eid : Option String) : StateManager :=
  let evs := s.events ++ [⟨now, ty, eid⟩]
  { s with
    events := evs.drop (evs.length - 1000)
    stats := { s.stats with events_logged := s.stats.events_logged + 1 } }

/-- Source: `StateManager.get_entity`. -/
def StateManager.get_entity (s : StateManager) (i : String) : Option MEntity :=
  lookupEnt s.entities i

/-- Source: `StateManager.get_entities_by_type` (with the stored ids, which
the engine reads off the returned objects). -/
def StateManager.get_entities_by_type (s : StateManager) (ty : String) :
    List (String × MEntity) :=
  s.entities.filter (fun p => p.2.core.entity_type = ty)

/-- Source: `StateManager.add_entity` — reject on id collision, else apply
any persisted sort index, store, bump stats and log `entity_created`. -/
def StateManager.add_entity (s : StateManager) (now : ℚ) (m : MEntity) :
    Bool × StateManager :=
  if (lookupEnt s.entities m.core.id).isSome then (false, s)
  else
    let m :=
      match lookupOrder s.entity_order m.core.id with
      | some ix => m.withCore { m.core with sort_index := some ix }
      | none => m
    let s := { s with
      entities := storeEnt s.entities m.core.id m
      stats := { s.stats with entities_created := s.stats.entities_created + 1 } }
    (true, s.log_event now "entity_created" (some m.core.id))

/-- Source: `StateManager.remove_entity` — delete from the map, evict from
the selection, bump stats, log `entity_removed`. -/
def StateManager.remove_entity (s : StateManager) (now : ℚ) (i : String) :
    Bool × StateManager :=
  if (lookupEnt s.entities i).isSome then
    let s := { s with
      entities := s.entities.filter (fun p => p.1 ≠ i)
      selected_entities := s.selected_entities.filter (fun k => k ≠ i)
      stats := { s.stats with entities_destroyed := s.stats.entities_destroyed + 1 } }
    (true, s.log_event now "entity_removed" (some i))
  else (false, s)

/-- Source: `StateManager.select_entity` — succeeds only for a live entity
that is not already selected; appends to the selection, flags the entity and
logs `entity_selected`. -/
def StateManager.select_entity (s : StateManager) (now : ℚ) (i : String) :
    Bool × StateManager :=
  if (lookupEnt s.entities i).isSome ∧ i ∉ s.selected_entities then
    let s := { s with
      selected_entities := s.selected_entities ++ [i]
      entities := modifyEnt s.entities i
        (fun m => m.withCore { m.core with selected := true }) }
    (true, s.log_event now "entity_selected" (some i))
  else (false, s)

/-- Source: `StateManager.deselect_entity`. -/
def StateManager.deselect_entity (s : StateManager) (now : ℚ) (i : String) :
    Bool × StateManager :=
  if i ∈ s.selected_entities then
    let s := { s with
      selected_entities := s.selected_entities.filter (fun k => k ≠ i)
      entities := modifyEnt s.entities i
        (fun m => m.withCore { m.core with selected := false }) }
    (true, s.log_event now "entity_deselected" (some i))
  else (false, s)

/-- Source: `StateManager.clear_selection` — reset each selected member's
flag (where still live), empty the list, log `selection_cleared`. -/
def StateManager.clear_selection (s : StateManager) (now : ℚ) : StateManager :=
  let s := { s with
    entities := s.selected_entities.foldl
      (fun es i => modifyEnt es i
        (fun m => m.withCore { m.core with selected := false })) s.entities
    selected_entities := [] }
  s.log_event now "selection_cleared" none

/-- Python truthiness of an optional string (`if not self.target_entity_id`
is taken for `None` and for the empty string). -/
def truthy : Option String → Bool
  | none => false
  | some s => !s.isEmpty

/-- Source: `Drone.valid_modes`. -/
def droneValidModes : List String :=
  ["random_search", "follow_target", "follow_teammate",
   "waypoint_mode", "kamikaze", "hold_position"]

/-- Source: `Drone.set_mode` — succeed and switch only for a valid mode. -/
def Drone.set_mode (mode : String) (e : Entity) : Bool × Entity :=
  if mode ∈ droneValidModes then (true, { e with current_mode := mode })
  else (false, e)

/-- The `random.uniform` draws one `Drone.update` tick can consume
(`_update_random_search`: angle, distance, altitude). -/
structure DroneRand where
  angle : ℚ
  dist : ℚ
  alt : ℚ

/-- Source: `Drone._is_at_target`. -/
def Drone.is_at_target (e : Entity) (d : DroneExt) : Bool :=
  e.position.distance_to e.target_position < d.approach_threshold

/-- Source: `Drone._move_towards_target` — decelerating steering: inside the
approach threshold damp the velocity by 0.8; otherwise turn the heading
toward the target (clamped to `turn_rate*dt` per tick, with the source's
`while`-loop angle normalisation as `normAngle`) and set the velocity to
horizontal speed `min(max_speed, 2*distance)` along the heading plus a
vertical component `desired.z * speed * 0.5`. -/
def Drone.move_towards_target (tr : Trig) (dt : ℚ) (e : Entity) (d : DroneExt) :
    Entity :=
  let direction := e.target_position - e.position
  let distance := direction.magnitude
  if distance < d.approach_threshold then
    { e with velocity := e.velocity.smul (8/10) }
  else if distance > 0 then
    let desired := direction.normalize
    let target_heading := tr.atan2 desired.y desired.x
    let heading_diff := normAngle (target_heading - e.heading)
    let max_turn := d.turn_rate * dt
    let heading' :=
      if |heading_diff| > max_turn then
        (if heading_diff > 0 then e.heading + max_turn else e.heading - max_turn)
      else target_heading
    let speed := min e.max_speed (distance * 2)
    { e with
      heading := heading'
      velocity := ⟨speed * tr.cos heading', speed * tr.sin heading',
                   desired.z * speed * (1/2)⟩ }
  else e

/-- Source: `Drone._update_random_search` — every `random_target_interval`
seconds (or on arrival) pick a random point over the patrol disk around
`(0, 0, 50)` (z drawn from `uniform(30, 100)`), then steer toward it. -/
def Drone.update_random_search (tr : Trig) (rnd : DroneRand) (dt : ℚ)
    (e : Entity) (d : DroneExt) : Entity × DroneExt :=
  let current_time := e.last_update_time
  if current_time - d.last_random_target_time > d.random_target_interval
      ∨ Drone.is_at_target e d then
    let e := { e with target_position :=
        ⟨0 + rnd.dist * tr.cos rnd.angle, 0 + rnd.dist * tr.sin rnd.angle,
         rnd.alt⟩ }
    let d := { d with last_random_target_time := current_time }
    (Drone.move_towards_target tr dt e d, d)
  else (Drone.move_towards_target tr dt e d, d)

/-- Source: `Drone._update_follow_target` — maintain a follow-distance band
to the referenced entity (close if beyond +10, retreat if within −10,
otherwise orbit), falling back to `random_search` when the reference is
absent or destroyed. -/
def Drone.update_follow_target (tr : Trig) (dt : ℚ) (s : StateManager)
    (e : Entity) (d : DroneExt) : Entity × DroneExt :=
  if !truthy d.target_entity_id then
    ((Drone.set_mode "random_search" e).2, d)
  else
    match s.get_entity (d.target_entity_id.getD "") with
    | some te =>
      if !te.core.destroyed then
        let direction := te.core.position - e.position
        let distance := direction.magnitude
        let e :=
          if distance > d.follow_distance + 10 then
            { e with target_position := te.core.position }
          else if distance < d.follow_distance - 10 then
            if direction.magnitude > 0 then
              let retreat := direction.normalize.smul (-1)
              { e with target_position :=
                  e.position + retreat.smul d.follow_distance }
            else e
          else
            let orbit_angle := e.last_update_time * (1/2)
            { e with target_position := te.core.position +
                ⟨d.follow_distance * tr.cos orbit_angle,
                 d.follow_distance * tr.sin orbit_angle, 0⟩ }
        (Drone.move_towards_target tr dt e d, d)
      else
        ((Drone.set_mode "random_search" e).2, { d with target_entity_id := none })
    | none =>
      ((Drone.set_mode "random_search" e).2, { d with target_entity_id := none })

/-- Source: `Drone._update_follow_teammate` — fixed offset `(-20, 15, 5)`
rotated by the teammate's heading, with the `random_search` fallback. -/
def Drone.update_follow_teammate (tr : Trig) (dt : ℚ) (s : StateManager)
    (e : Entity) (d : DroneExt) : Entity × DroneExt :=
  if !truthy d.teammate_entity_id then
    ((Drone.set_mode "random_search" e).2, d)
  else
    match s.get_entity (d.teammate_entity_id.getD "") with
    | some te =>
      if !te.core.destroyed then
        let ch := tr.cos te.core.heading
        let sh := tr.sin te.core.heading
        let rotated : Vector3 :=
          ⟨(-20) * ch - 15 * sh, (-20) * sh + 15 * ch, 5⟩
        let e := { e with target_position := te.core.position + rotated }
        (Drone.move_towards_target tr dt e d, d)
      else
        ((Drone.set_mode "random_search" e).2, { d with teammate_entity_id := none })
    | none =>
      ((Drone.set_mode "random_search" e).2, { d with teammate_entity_id := none })

/-- Source: `Drone._update_waypoint_mode` — on arrival pop the next waypoint
(FIFO) as the new target, or switch to `hold_position` when exhausted. -/
def Drone.update_waypoint_mode (tr : Trig) (dt : ℚ) (e : Entity) (d : DroneExt) :
    Entity × DroneExt :=
  if Drone.is_at_target e d then
    match e.waypoints with
    | w :: rest =>
      (Drone.move_towards_target tr dt
        { e with target_position := w, waypoints := rest } d, d)
    | [] => ((Drone.set_mode "hold_position" e).2, d)
  else (Drone.move_towards_target tr dt e d, d)

/-- Source: the nearest-in-hunting-range scan of `Drone._update_kamikaze`
(`nearest_distance` starts at `float('inf')`, strict improvement, candidates
must be alive and within `hunting_range`). -/
def Drone.scan_nearest (e : Entity) (d : DroneExt)
    (targets : List (String × MEntity)) : Option (String × MEntity × ℚ) :=
  targets.foldl
    (fun acc t =>
      if t.2.core.destroyed then acc
      else
        let dist := e.position.distance_to t.2.core.position
        match acc with
        | none => if dist ≤ d.hunting_range then some (t.1, t.2, dist) else none
        | some (bi, bm, bd) =>
          if dist < bd ∧ dist ≤ d.hunting_range then some (t.1, t.2, dist)
          else some (bi, bm, bd))
    none

/-- Source: `Drone._update_kamikaze` — if disabled revert to
`random_search`; with no assigned target, lock onto the nearest live target
within hunting range (else patrol randomly this tick); with a live assigned
target, steer toward it and, within `engagement_range`, destroy the target
and self via `take_damage(1.0)` and log a `kamikaze_attack` event, all in
the same tick. -/
def Drone.update_kamikaze (tr : Trig) (rnd : DroneRand) (now dt : ℚ)
    (s : StateManager) (e : Entity) (d : DroneExt) :
    (Entity × DroneExt) × StateManager :=
  if !d.kamikaze_enabled then
    (((Drone.set_mode "random_search" e).2, d), s)
  else if !truthy d.target_entity_id then
    match Drone.scan_nearest e d (s.get_entities_by_type "target") with
    | some (ti, tm, _) =>
      let d := { d with target_entity_id := some ti }
      let e := { e with target_position := tm.core.position }
      ((Drone.move_towards_target tr dt e d, d), s)
    | none => ((Drone.update_random_search tr rnd dt e d), s)
  else
    let tid := d.target_entity_id.getD ""
    match s.get_entity tid with
    | some te =>
      if !te.core.destroyed then
        let e := { e with target_position := te.core.position }
        let distance_to_target := e.position.distance_to te.core.position
        if distance_to_target ≤ d.engagement_range then
          let s :=
            { s with entities := modifyEnt s.entities tid (MEntity.take_damage 1) }
          let e := e.take_damage 1
          ((e, d), s.log_event now "kamikaze_attack" (some e.id))
        else ((Drone.move_towards_target tr dt e d, d), s)
      else
        let d := { d with target_entity_id := none }
        ((Drone.move_towards_target tr dt e d, d), s)
    | none =>
      let d := { d with target_entity_id := none }
      ((Drone.move_towards_target tr dt e d, d), s)

/-- Source: `Drone._update_hold_position` — zero the forward velocity, then
apply the small sinusoidal hover perturbation. -/
def Drone.update_hold_position (tr : Trig) (e : Entity) : Entity :=
  let time_offset := e.last_update_time * (1/2)
  { e with velocity :=
      ⟨2 * tr.sin time_offset, 0, 2 * tr.cos (time_offset * (7/10))⟩ }

/-- Source: `Drone.update` — shared base physics (`Entity.update`), early
return when destroyed, then dispatch on `current_mode`. -/
def Drone.update (tr : Trig) (rnd : DroneRand) (now dt : ℚ) (s : StateManager)
    (e : Entity) (d : DroneExt) : (Entity × DroneExt) × StateManager :=
  let e := Entity.update now dt e
  if e.destroyed then ((e, d), s)
  else if e.current_mode = "random_search" then
    ((Drone.update_random_search tr rnd dt e d), s)
  else if e.current_mode = "follow_target" then
    ((Drone.update_follow_target tr dt s e d), s)
  else if e.current_mode = "follow_teammate" then
    ((Drone.update_follow_teammate tr dt s e d), s)
  else if e.current_mode = "waypoint_mode" then
    ((Drone.update_waypoint_mode tr dt e d), s)
  else if e.current_mode = "kamikaze" then
    Drone.update_kamikaze tr rnd now dt s e d
  else if e.current_mode = "hold_position" then
    ((Drone.update_hold_position tr e, d), s)
  else ((e, d), s)

/-- Source: `Target.valid_modes`. -/
def targetValidModes : List String := ["waypoint_mode", "hold_position"]

/-- Source: `Target.set_mode`. -/
def Target.set_mode (mode : String) (e : Entity) : Bool × Entity :=
  if mode ∈ targetValidModes then (true, { e with current_mode := mode })
  else (false, e)

/-- The `random` draws one `Target.update` tick can consume
(`_update_waypoint_mode`: angle and distance of the generated patrol point;
`_update_hold_position`: the two `uniform(-3,3)` offsets, the
`random.random()` gate and the `uniform(-0.5,0.5)` rotation). -/
structure TargetRand where
  angle : ℚ
  dist : ℚ
  dx : ℚ
  dz : ℚ
  r : ℚ
  dh : ℚ

/-- Source: `Target._is_at_target`. -/
def Target.is_at_target (e : Entity) (t : TargetExt) : Bool :=
  e.position.distance_to e.target_position < t.approach_threshold

/-- Source: `Target._move_towards_target` — ground-vehicle steering: stop
inside the approach threshold; otherwise turn (rate-limited), speed
`min(patrol_speed, distance)`, zero vertical velocity (the source also
zeroes `desired_direction.z`, which nothing reads afterwards). -/
def Target.move_towards_target (tr : Trig) (dt : ℚ) (e : Entity) (t : TargetExt) :
    Entity :=
  let direction := e.target_position - e.position
  let distance := direction.magnitude
  if distance < t.approach_threshold then
    { e with velocity := ⟨0, 0, 0⟩ }
  else if distance > 0 then
    let desired := direction.normalize
    let target_heading := tr.atan2 desired.y desired.x
    let heading_diff := normAngle (target_heading - e.heading)
    let max_turn := t.turn_rate * dt
    let heading' :=
      if |heading_diff| > max_turn then
        (if heading_diff > 0 then e.heading + max_turn else e.heading - max_turn)
      else target_heading
    let speed := min t.patrol_speed distance
    { e with
      heading := heading'
      velocity := ⟨speed * tr.cos heading', speed * tr.sin heading', 0⟩ }
  else e

/-- Source: `Target._update_waypoint_mode` — advance the dwell timer; on
arrival or 30 s timeout take the next waypoint or generate a random nearby
ground point, then steer. -/
def Target.update_waypoint_mode (tr : Trig) (rnd : TargetRand) (dt : ℚ)
    (e : Entity) (t : TargetExt) : Entity × TargetExt :=
  let t := { t with patrol_waypoint_timer := t.patrol_waypoint_timer + dt }
  if Target.is_at_target e t ∨ t.patrol_waypoint_timer ≥ t.patrol_waypoint_interval
  then
    let e :=
      match e.waypoints with
      | w :: rest => { e with target_position := w, waypoints := rest }
      | [] =>
        { e with target_position :=
            ⟨e.position.x + rnd.dist * tr.cos rnd.angle,
             e.position.y + rnd.dist * tr.sin rnd.angle, 0⟩ }
    let t := { t with patrol_waypoint_timer := 0 }
    (Target.move_towards_target tr dt e t, t)
  else (Target.move_towards_target tr dt e t, t)

/-- Source: `Target._update_hold_position` — stop; every 30 s of wall clock
set a small random ground-level target offset (and with probability 0.3 a
small rotation). -/
def Target.update_hold_position (rnd : TargetRand) (now : ℚ)
    (e : Entity) (t : TargetExt) : Entity × TargetExt :=
  let e := { e with velocity := ⟨0, 0, 0⟩ }
  if now - t.last_micro_movement > 30 then
    let e := { e with target_position :=
        ⟨e.position.x + rnd.dx, 0, e.position.z + rnd.dz⟩ }
    let t := { t with last_micro_movement := now }
    let e := if rnd.r < 3/10 then { e with heading := e.heading + rnd.dh } else e
    (e, t)
  else (e, t)

/-- The ground-level correction at the top of `Target.update`:
`if position.y != 0: position.y = 0; velocity.y = 0`. -/
def Target.ground_pin (e : Entity) : Entity :=
  if e.position.y ≠ 0 then
    { e with position := { e.position with y := 0 },
             velocity := { e.velocity with y := 0 } }
  else e

/-- Source: `Target.update` — shared base physics, then the ground-level
pin (`position.y = 0`, `velocity.y = 0` whenever `position.y != 0`), early
return when destroyed, refresh `is_moving`/`last_seen_time`, then dispatch
on `current_mode`. -/
def Target.update (tr : Trig) (rnd : TargetRand) (now dt : ℚ)
    (e : Entity) (t : TargetExt) : Entity × TargetExt :=
  let e := Entity.update now dt e
  let e := Target.ground_pin e
  if e.destroyed then (e, t)
  else
    let t := { t with is_moving := e.velocity.magnitude > 1/10 }
    let t :=
      if e.detected then { t with last_seen_time := e.last_update_time } else t
    if e.current_mode = "waypoint_mode" then
      Target.update_waypoint_mode tr rnd dt e t
    else if e.current_mode = "hold_position" then
      Target.update_hold_position rnd now e t
    else (e, t)

/-- Source: `Target.mark_detected` — on the transition into detected set
`detection_time = now` and `detection_count = 1`, on a re-invocation
increment the count; always set the flag, keep the running maximum of the
confidence and refresh `last_seen_time`. -/
def Target.mark_detected (now conf : ℚ) (e : Entity) (t : TargetExt) :
    Entity × TargetExt :=
  let t :=
    if !e.detected then { t with detection_time := now, detection_count := 1 }
    else { t with detection_count := t.detection_count + 1 }
  ({ e with detected := true },
   { t with confidence := max t.confidence conf, last_seen_time := now })

/-- One drone/target check of `SimulationEngine._update_detection_system`:
if both are alive and the pair is within the drone's detection radius and
the target is not yet detected, call `mark_detected(drone.id, 0.8)` on the
stored target object and log a `target_detected` event.  The entities are
re-read from the store because the Python loops mutate the shared objects
in place. -/
def detectPairStep (now : ℚ) (droneId targetId : String) (s : StateManager) :
    StateManager :=
  match lookupEnt s.entities droneId, lookupEnt s.entities targetId with
  | some dm, some tm =>
    match tm with
    | .target te tx =>
      if dm.core.destroyed then s
      else if te.destroyed then s
      else if dm.core.position.distance_to te.position ≤ dm.core.detection_radius
      then
        if !te.detected then
          let (te', tx') := Target.mark_detected now (8/10) te tx
          let s :=
            { s with entities := storeEnt s.entities targetId (.target te' tx') }
          s.log_event now "target_detected" (some targetId)
        else s
      else s
    | _ => s
  | _, _ => s

/-- The body of `SimulationEngine._update_detection_system` once the 100 ms
cadence gate has passed: iterate the drone list against the target list
(both computed up front), updating the store pairwise. -/
def detectionCycle (now : ℚ) (s : StateManager) : StateManager :=
  let drones := s.get_entities_by_type "drone"
  let targets := s.get_entities_by_type "target"
  drones.foldl
    (fun s dp => targets.foldl (fun s tp => detectPairStep now dp.1 tp.1 s) s)
    s

/-- Source: `SimulationEngine._update_detection_system` — skip entirely
within 100 ms of the previous check, else record the check time and run the
pairwise cycle.  Returns the new `last_detection_check` with the state. -/
def updateDetectionSystem (now lastCheck : ℚ) (s : StateManager) :
    ℚ × StateManager :=
  if now - lastCheck < 1/10 then (lastCheck, s)
  else (now, detectionCycle now s)

/-- A property value in the `**kwargs` bag handed to
`StateManager.create_entity` / `SimulationEngine.spawn_entity`. -/
inductive PropVal where
  | pStr (s : String)
  | pNum (q : ℚ)
  | pBool (b : Bool)
deriving DecidableEq

/-- Source: the keys of `StateManager.entity_types`. -/
def entityTypesKeys : List String := ["entity", "drone", "target"]

/-- Dispatch on `entity_types[entity_type]` for construction. -/
def initByType (ty eid : String) (pos : Vector3) (now : ℚ) : MEntity :=
  if ty = "drone" then
    let (e, d) := Drone.init eid pos now
    .drone e d
  else if ty = "target" then
    let (e, t) := Target.init eid pos now
    .target e t
  else .base (Entity.init eid pos now)

/-- Source: `StateManager.create_entity`.  The call
`entity_class(entity_id, position, **kwargs)` reaches a constructor whose
signature is exactly `(entity_id=None, position=None)` for all three
registered classes, so any non-empty `kwargs` raises `TypeError` before the
"set additional properties" loop below it can run (that loop is therefore
only ever executed with an empty bag).  The uncaught exception is modelled
by `Except.error`.  `gen_id` models the `str(uuid.uuid4())` fallback used
when `entity_id` is falsy. -/
def StateManager.create_entity (s : StateManager) (now : ℚ)
    (entity_type : String) (entity_id : Option String) (gen_id : String)
    (position : Option Vector3) (props : List (String × PropVal)) :
    Except String (Option MEntity × StateManager) :=
  if entity_type ∈ entityTypesKeys then
    if props.isEmpty then
      let pos := position.getD ⟨0, 0, 0⟩
      let eid := if truthy entity_id then entity_id.getD "" else gen_id
      let m := initByType entity_type eid pos now
      match s.add_entity now m with
      | (true, s') => .ok (lookupEnt s'.entities m.core.id, s')
      | (false, s') => .ok (none, s')
    else .error "TypeError: unexpected keyword argument"
  else .ok (none, s)

/-- A queued spawn request (source: the dict built by
`SimulationEngine.spawn_entity`). -/
structure SpawnData where
  type : String
  id : Option String
  position : Vector3
  properties : List (String × PropVal)
deriving DecidableEq

/-- Source: `SimulationEngine._process_spawn_queue` — pop each request,
create the entity through the store and log `entity_spawned` on success.
The `TypeError` from `create_entity` is not caught here (it propagates to
the simulation loop). -/
def processSpawnQueue (now : ℚ) (gen : ℕ → String) :
    ℕ → List SpawnData → StateManager → Except String StateManager
  | _, [], s => .ok s
  | k, sd :: rest, s =>
    match s.create_entity now sd.type sd.id (gen k) (some sd.position)
        sd.properties with
    | .error msg => .error msg
    | .ok (some m, s') =>
      processSpawnQueue now gen (k + 1) rest
        (s'.log_event now "entity_spawned" (some m.core.id))
    | .ok (none, s') => processSpawnQueue now gen (k + 1) rest s'

/-- The keyword dictionary handed to `Vector3(**...)` during `from_dict`. -/
structure VecData where
  entries : List (String × ℚ)
deriving DecidableEq

/-- Dict `get` with default on the kwargs list. -/
def lookupQ : List (String × ℚ) → String → ℚ → ℚ
  | [], _, dflt => dflt
  | (k, v) :: rest, key, dflt => if k = key then v else lookupQ rest key dflt

/-- Source: `Vector3(**kwargs)` — the dataclass accepts only the keywords `x`, `y`,
`z` (each defaulting to 0) and raises `TypeError` on any other key. -/
def Vector3.from_kwargs (v : VecData) : Except String Vector3 :=
  if v.entries.all (fun p => p.1 = "x" ∨ p.1 = "y" ∨ p.1 = "z") then
    .ok ⟨lookupQ v.entries "x" 0, lookupQ v.entries "y" 0, lookupQ v.entries "z" 0⟩
  else .error "TypeError: unexpected keyword argument"

/-- One serialized entity record inside a snapshot, as the `from_dict`
readers consume it (`data.get(key, default)`: an absent key is `none`). -/
structure EntityData where
  id : Option String
  entity_type : Option String
  position : Option VecData
  heading : Option ℚ
  velocity : Option VecData
  max_speed : Option ℚ
  detection_radius : Option ℚ
  collision_radius : Option ℚ
  health : Option ℚ
  detected : Option Bool
  selected : Option Bool
  destroyed : Option Bool
  target_position : Option VecData
  current_mode : Option String
  created_time : Option ℚ
  last_update_time : Option ℚ
  waypoints : Option (List VecData)
  target_entity_id : Option (Option String)
  teammate_entity_id : Option (Option String)
  follow_distance : Option ℚ
  kamikaze_enabled : Option Bool
  hunting_range : Option ℚ
  turn_rate : Option ℚ
  approach_threshold : Option ℚ
  patrol_area_size : Option ℚ
  engagement_range : Option ℚ
  observed_velocity : Option VecData
  last_seen_time : Option ℚ
  confidence : Option ℚ
  role : Option String
  affiliation : Option String
  is_moving : Option Bool
  is_targeted : Option Bool
  patrol_speed : Option ℚ
  detection_time : Option ℚ
  detection_count : Option ℕ
deriving DecidableEq

/-- A snapshot record with every field absent (`{}`). -/
def EntityData.empty : EntityData :=
  ⟨none, none, none, none, none, none, none, none, none, none, none, none,
   none, none, none, none, none, none, none, none, none, none, none, none,
   none, none, none, none, none, none, none, none, none, none, none, none⟩

/-- Source: `Entity.from_dict` — construct via
`cls(entity_id=data.get("id"), position=Vector3(**data.get("position", {})))`
then overwrite the base fields from the dict (with the `__init__` defaults
as fallbacks; `created_time`/`last_update_time` fall back to `time.time()`).
Malformed `Vector3` kwargs raise. -/
def Entity.from_dict (data : EntityData) (gen_id : String) (now : ℚ) :
    Except String Entity := do
  let pos ← Vector3.from_kwargs (data.position.getD ⟨[]⟩)
  let vel ← Vector3.from_kwargs (data.velocity.getD ⟨[]⟩)
  let tpos ← Vector3.from_kwargs (data.target_position.getD ⟨[]⟩)
  let wps ← (data.waypoints.getD []).mapM Vector3.from_kwargs
  let eid := if truthy data.id then data.id.getD "" else gen_id
  .ok { Entity.init eid pos now with
        heading := data.heading.getD 0
        velocity := vel
        max_speed := data.max_speed.getD 10
        detection_radius := data.detection_radius.getD 100
        collision_radius := data.collision_radius.getD 5
        health := data.health.getD 1
        detected := data.detected.getD false
        selected := data.selected.getD false
        destroyed := data.destroyed.getD false
        target_position := tpos
        current_mode := data.current_mode.getD "idle"
        created_time := data.created_time.getD now
        last_update_time := data.last_update_time.getD now
        waypoints := wps }

/-- Source: `Drone.from_dict` — parses the position for the discarded
`cls(...)` call, rebuilds the base fields through `Entity.from_dict` (note:
the result is an `Entity`-constructed object whose `__class__` is switched,
so the `Drone.__init__` overrides are NOT applied; missing base fields get
the `Entity` defaults), then sets the drone-specific fields from the dict.
`last_random_target_time`/`random_target_interval` are never set by
`from_dict` (the class switch leaves them unset); they are modelled with
the `__init__` values, which no claim reads. -/
def Drone.from_dict (data : EntityData) (gen_id : String) (now : ℚ) :
    Except String (Entity × DroneExt) := do
  let _pos ← Vector3.from_kwargs (data.position.getD ⟨[]⟩)
  let e ← Entity.from_dict data gen_id now
  let e := { e with entity_type := "drone" }
  .ok (e,
    { target_entity_id := data.target_entity_id.getD none
      teammate_entity_id := data.teammate_entity_id.getD none
      follow_distance := data.follow_distance.getD 20
      kamikaze_enabled := data.kamikaze_enabled.getD true
      hunting_range := data.hunting_range.getD 200
      turn_rate := data.turn_rate.getD piQ
      approach_threshold := data.approach_threshold.getD 5
      patrol_area_size := data.patrol_area_size.getD 100
      last_random_target_time := 0
      random_target_interval := 10
      engagement_range := data.engagement_range.getD 10 })

/-- Source: `Target.from_dict` — same class-switch construction as
`Drone.from_dict`, then the target-specific fields (including the possibly
throwing `Vector3(**data.get("observed_velocity", {}))`).  The private
movement-state fields are never set by `from_dict`; they are modelled with
the `__init__` values, which no claim reads. -/
def Target.from_dict (data : EntityData) (gen_id : String) (now : ℚ) :
    Except String (Entity × TargetExt) := do
  let _pos ← Vector3.from_kwargs (data.position.getD ⟨[]⟩)
  let e ← Entity.from_dict data gen_id now
  let e := { e with entity_type := "target" }
  let ovel ← Vector3.from_kwargs (data.observed_velocity.getD ⟨[]⟩)
  .ok (e,
    { observed_velocity := ovel
      last_seen_time := data.last_seen_time.getD 0
      confidence := data.confidence.getD 0
      role := data.role.getD "unknown"
      affiliation := data.affiliation.getD "hostile"
      is_moving := data.is_moving.getD false
      is_targeted := data.is_targeted.getD false
      patrol_speed := data.patrol_speed.getD 5
      turn_rate := data.turn_rate.getD 1
      approach_threshold := data.approach_threshold.getD 10
      last_micro_movement := now
      patrol_waypoint_timer := 0
      patrol_waypoint_interval := 30
      detection_time := data.detection_time.getD 0
      detection_count := data.detection_count.getD 0 })

/-- Source: `entity_class.from_dict(entity_data)` after the
`entity_types[entity_type]` dispatch of `load_state_snapshot`. -/
def parseEntityByType (ty : String) (ed : EntityData) (gen_id : String)
    (now : ℚ) : Except String MEntity :=
  if ty = "drone" then (Drone.from_dict ed gen_id now).map fun p => .drone p.1 p.2
  else if ty = "target" then
    (Target.from_dict ed gen_id now).map fun p => .target p.1 p.2
  else (Entity.from_dict ed gen_id now).map .base

/-- The snapshot dictionary consumed by `load_state_snapshot`
(`snapshot.get(key, default)`: an absent key is `none`). -/
structure Snapshot where
  entities : Option (List (String × EntityData))
  selected_entities : Option (List String)
  simulation_running : Option Bool
  simulation_speed : Option ℚ
  simulation_time : Option ℚ
deriving DecidableEq

/-- The entity-loading loop of `load_state_snapshot`, with Python exception
semantics: a `from_dict` failure escapes carrying the state as mutated so
far (entities already parsed stay stored). -/
def loadEntitiesAux (now : ℚ) (gen : ℕ → String) :
    ℕ → List (String × EntityData) → StateManager →
    Except StateManager StateManager
  | _, [], s => .ok s
  | k, (eid, ed) :: rest, s =>
    let ty := ed.entity_type.getD "entity"
    if ty ∈ entityTypesKeys then
      match parseEntityByType ty ed (gen k) now with
      | .error _ => .error s
      | .ok m =>
        loadEntitiesAux now gen (k + 1) rest
          { s with entities := storeEnt s.entities eid m }
    else loadEntitiesAux now gen (k + 1) rest s

/-- Source: `StateManager.load_state_snapshot` — inside the `try` block the
live entity map and selection are cleared FIRST, then entities are parsed
one by one, then the selection and the simulation flags are overwritten
from the snapshot and `state_loaded` is logged.  Any exception lands in the
`except` handler, which logs `state_load_error` and returns `False` with
whatever state the partial execution left behind. -/
def StateManager.load_state_snapshot (s : StateManager) (now : ℚ)
    (gen : ℕ → String) (snap : Snapshot) : Bool × StateManager :=
  let s1 := { s with entities := [], selected_entities := [] }
  match loadEntitiesAux now gen 0 (snap.entities.getD []) s1 with
  | .error sErr => (false, sErr.log_event now "state_load_error" none)
  | .ok s2 =>
    let s3 := { s2 with
      selected_entities := snap.selected_entities.getD []
      simulation_running := snap.simulation_running.getD false
      simulation_speed := snap.simulation_speed.getD 1
      simulation_time := snap.simulation_time.getD 0 }
    (true, s3.log_event now "state_loaded" none)

/-- A Python float as stored in entity attributes: finite (rational), one of
the infinities, or NaN.  Used by the serialization model, where the inf/NaN
sanitisation of `safe_float` is the point of the claim. -/
inductive F where
  | fin (q : ℚ)
  | pinf
  | ninf
  | nan
deriving DecidableEq

/-- Source: `safe_float` in `entities/base.py` — ±infinity clamps to
±1000000.0, NaN to 0.0, anything else passes through. -/
def safe_float : F → F
  | .pinf => .fin 1000000
  | .ninf => .fin (-1000000)
  | .nan => .fin 0
  | .fin q => .fin q

/-- Finite (neither infinite nor NaN). -/
def F.isFinite : F → Bool
  | .fin _ => true
  | _ => false

/-- A 3-vector of Python floats (for the serialization model). -/
structure Vector3F where
  x : F
  y : F
  z : F
deriving DecidableEq

/-- Component-wise `safe_float`, as `to_dict` applies to vector fields. -/
def sanitizeVec (v : Vector3F) : Vector3F :=
  ⟨safe_float v.x, safe_float v.y, safe_float v.z⟩

/-- The floating-point attributes of an `Entity` as arbitrary Python floats
(any of them may internally hold inf or NaN, e.g. after `from_dict`). -/
structure EntityFloats where
  position : Vector3F
  heading : F
  velocity : Vector3F
  max_speed : F
  detection_radius : F
  collision_radius : F
  health : F
  target_position : Vector3F
  waypoints : List Vector3F
  created_time : F
  last_update_time : F
deriving DecidableEq

/-- The floating-point fields of the dictionary `Entity.to_dict` produces,
exactly as the source builds them: every field is passed through
`safe_float` EXCEPT `created_time` and `last_update_time`, which are copied
raw. -/
def Entity.to_dict_floats (e : EntityFloats) : EntityFloats :=
  { position := sanitizeVec e.position
    heading := safe_float e.heading
    velocity := sanitizeVec e.velocity
    max_speed := safe_float e.max_speed
    detection_radius := safe_float e.detection_radius
    collision_radius := safe_float e.collision_radius
    health := safe_float e.health
    target_position := sanitizeVec e.target_position
    waypoints := e.waypoints.map sanitizeVec
    created_time := e.created_time
    last_update_time := e.last_update_time }

/-! ## Theorems -/

theorem Target.move_towards_target_position (tr : Trig) (dt : ℚ) (e : Entity)
    (t : TargetExt) : (Target.move_towards_target tr dt e t).position = e.position := by
  unfold Target.move_towards_target
  dsimp only
  split_ifs <;> rfl

theorem Target.update_waypoint_mode_position (tr : Trig) (rnd : TargetRand)
    (dt : ℚ) (e : Entity) (t : TargetExt) :
    (Target.update_waypoint_mode tr rnd dt e t).1.position = e.position := by
  unfold Target.update_waypoint_mode
  dsimp only
  split_ifs with h
  · cases hw : e.waypoints <;>
      simp [hw, Target.move_towards_target_position]
  · simp [Target.move_towards_target_position]

theorem Target.update_hold_position_position (rnd : TargetRand) (now : ℚ)
    (e : Entity) (t : TargetExt) :
    (Target.update_hold_position rnd now e t).1.position = e.position := by
  unfold Target.update_hold_position
  dsimp only
  split_ifs <;> rfl

theorem Target.ground_pin_y (e : Entity) : (Target.ground_pin e).position.y = 0 := by
  unfold Target.ground_pin
  split_ifs with h
  · rfl
  · simpa using h

/-- C6 (confirmed): for every Target and every `dt`, immediately after
`Target.update(dt)` returns, the target's vertical position component
(`position.y`, the component the source pins) is exactly 0: the correction
runs right after the base physics step, and no mode handler writes to
`position` (they only set velocity, heading and `target_position`). -/
theorem C6_target_altitude_zero_after_update (tr : Trig) (rnd : TargetRand)
    (now dt : ℚ) (e : Entity) (t : TargetExt) :
    ((Target.update tr rnd now dt e t).1).position.y = 0 := by
  unfold Target.update
  dsimp only
  generalize hG : Target.ground_pin (Entity.update now dt e) = g
  have hy : g.position.y = 0 := by rw [← hG]; exact Target.ground_pin_y _
  split_ifs <;>
    simp [Target.update_waypoint_mode_position,
      Target.update_hold_position_position, hy]

theorem Entity.update_health (now dt : ℚ) (e : Entity) :
    (Entity.update now dt e).health = e.health ∧
    (Entity.update now dt e).destroyed = e.destroyed := by
  unfold Entity.update
  dsimp only
  split_ifs <;> exact ⟨rfl, rfl⟩

/-- The spec's health/destroyed invariant:
`0 ≤ health ≤ 1` and `destroyed ⇔ health == 0`. -/
def HealthInv (e : Entity) : Prop :=
  0 ≤ e.health ∧ e.health ≤ 1 ∧ (e.destroyed = true ↔ e.health = 0)

/-- One application of an entity's own state-changing operations, with the
operations' intended domains (a damage amount and a heal amount are
nonnegative quantities). -/
inductive EntityStep : Entity → Entity → Prop
  | damage (e : Entity) (d : ℚ) (hd : 0 ≤ d) : EntityStep e (e.take_damage d)
  | heal (e : Entity) (a : ℚ) (ha : 0 ≤ a) : EntityStep e (e.heal a)
  | upd (e : Entity) (now dt : ℚ) : EntityStep e (Entity.update now dt e)

/-- C8 (confirmed): freshly constructed entities satisfy
`0 ≤ health ≤ 1 ∧ (destroyed ↔ health = 0)`, every own operation
(`take_damage`, `heal`, `update`) preserves that invariant, and the
`destroyed` flag is one-way (no operation, including `heal` on a destroyed
entity, ever clears it). -/
theorem C8_health_invariant :
    (∀ (eid : String) (pos : Vector3) (now : ℚ),
      HealthInv (Entity.init eid pos now) ∧
      HealthInv (Drone.init eid pos now).1 ∧
      HealthInv (Target.init eid pos now).1) ∧
    (∀ e e' : Entity, EntityStep e e' →
      (HealthInv e → HealthInv e') ∧
      (e.destroyed = true → e'.destroyed = true)) := by
  constructor
  · intro eid pos now
    refine ⟨⟨?_, ?_, ?_⟩, ⟨?_, ?_, ?_⟩, ⟨?_, ?_, ?_⟩⟩ <;>
      simp [Entity.init, Drone.init, Target.init, HealthInv]
  · intro e e' step
    cases step with
    | damage d hd =>
      unfold Entity.take_damage
      dsimp only
      constructor
      · rintro ⟨h0, h1, hiff⟩
        refine ⟨le_max_left _ _, ?_, ?_⟩
        · exact max_le (by norm_num) (by linarith)
        · split_ifs with hle
          · have : max 0 (e.health - d) = 0 :=
              le_antisymm hle (le_max_left _ _)
            simp [this]
          · push_neg at hle
            have hne : max 0 (e.health - d) ≠ 0 := by positivity
            simp only [hne, iff_false]
            intro hdes
            have hh0 : e.health = 0 := hiff.mp hdes
            rw [hh0] at hle
            have : max 0 (0 - d) = 0 := max_eq_left (by linarith)
            rw [this] at hle
            exact absurd rfl hle.ne'
      · intro hdes
        split_ifs <;> simp [hdes]
    | heal a ha =>
      unfold Entity.heal
      constructor
      · rintro ⟨h0, h1, hiff⟩
        split_ifs with hdes
        · exact ⟨h0, h1, hiff⟩
        · have hne : e.health ≠ 0 := by
            intro h
            exact hdes (hiff.mpr h)
          have hpos : 0 < e.health := lt_of_le_of_ne h0 (Ne.symm hne)
          refine ⟨le_min (by norm_num) (by linarith), min_le_left _ _, ?_⟩
          simp only [hdes]
          constructor
          · intro h; exact absurd h (by simp)
          · intro h
            have : 0 < min 1 (e.health + a) := lt_min (by norm_num) (by linarith)
            exact absurd h this.ne'
      · intro hdes
        rw [if_pos hdes]
        exact hdes
    | upd now dt =>
      have h := Entity.update_health now dt e
      constructor
      · rintro ⟨h0, h1, hiff⟩
        exact ⟨h.1 ▸ h0, h.1 ▸ h1, by rw [h.1, h.2]; exact hiff⟩
      · intro hdes; rw [h.2]; exact hdes

/-- Witness for C8: the invariant, transported across a concrete
`take_damage 1/2` step from a fresh entity. -/
theorem C8_health_invariant_witness :
    HealthInv ((Entity.init "e1" ⟨0, 0, 0⟩ 0).take_damage (1/2)) :=
  (C8_health_invariant.2 _ _ (EntityStep.damage _ (1/2) (by norm_num))).1
    (C8_health_invariant.1 "e1" ⟨0, 0, 0⟩ 0).1

/-- C9 (confirmed): `select_entity` is idempotent — a second identical call
returns `False` and leaves the whole state (selection set included) exactly
as after the first call — and `clear_selection` applied twice leaves an
empty selection set after each call. -/
theorem C9_selection_idempotent :
    (∀ (s : StateManager) (now₁ now₂ : ℚ) (i : String),
      (s.select_entity now₁ i).2.select_entity now₂ i
        = (false, (s.select_entity now₁ i).2)) ∧
    (∀ (s : StateManager) (now₁ now₂ : ℚ),
      (s.clear_selection now₁).selected_entities = [] ∧
      ((s.clear_selection now₁).clear_selection now₂).selected_entities = []) := by
  constructor
  · intro s now₁ now₂ i
    unfold StateManager.select_entity
    split_ifs with h1 h2
    · exact absurd (by simp [StateManager.log_event] : i ∈ _) h2.2
    · rfl
    · rfl
  · intro s now₁ now₂
    exact ⟨rfl, rfl⟩

/-- A concrete trig interpretation for witnesses and counterexamples:
`cos ≡ 1`, `sin ≡ 0`, `atan2 ≡ 0` satisfies the Pythagorean identity and
agrees with the real `cos`/`sin`/`atan2` at every point the concrete runs
below evaluate them (heading 0, `atan2 0 x` with `x > 0`). -/
def trigW : Trig := ⟨fun _ => 1, fun _ => 0, fun _ _ => 0⟩

theorem trigW_pyth : PythTrig trigW := by
  intro θ; norm_num [trigW]

/-- C10 (confirmed): updating a destroyed drone changes only the
last-update timestamp — the physics step and every mode handler are
skipped, so position, heading, velocity, health, mode, waypoints, the
drone-specific fields and the world state are all left unchanged. -/
theorem C10_destroyed_drone_update_frame (tr : Trig) (rnd : DroneRand)
    (now dt : ℚ) (s : StateManager) (e : Entity) (d : DroneExt)
    (h : e.destroyed = true) :
    Drone.update tr rnd now dt s e d
      = (({ e with last_update_time := now }, d), s) := by
  unfold Drone.update Entity.update
  simp [h]

/-- Witness for C10: a concrete destroyed drone, updated at `now = 5`. -/
theorem C10_destroyed_drone_update_frame_witness :
    Drone.update trigW ⟨0, 0, 0⟩ 5 1 StateManager.empty
        { (Drone.init "d1" ⟨1, 2, 3⟩ 0).1 with destroyed := true }
        (Drone.init "d1" ⟨1, 2, 3⟩ 0).2
      = ((({ (Drone.init "d1" ⟨1, 2, 3⟩ 0).1 with
              destroyed := true, last_update_time := 5 }),
          (Drone.init "d1" ⟨1, 2, 3⟩ 0).2), StateManager.empty) :=
  C10_destroyed_drone_update_frame trigW ⟨0, 0, 0⟩ 5 1 StateManager.empty
    { (Drone.init "d1" ⟨1, 2, 3⟩ 0).1 with destroyed := true }
    (Drone.init "d1" ⟨1, 2, 3⟩ 0).2 rfl

theorem Entity.update_proj (now dt : ℚ) (e : Entity) :
    (Entity.update now dt e).current_mode = e.current_mode ∧
    (Entity.update now dt e).id = e.id ∧
    (Entity.update now dt e).target_position = e.target_position ∧
    (Entity.update now dt e).waypoints = e.waypoints ∧
    (Entity.update now dt e).max_speed = e.max_speed := by
  unfold Entity.update
  dsimp only
  split_ifs <;> exact ⟨rfl, rfl, rfl, rfl, rfl⟩

theorem MEntity.core_withCore (m : MEntity) (c : Entity) :
    (m.withCore c).core = c := by
  cases m <;> rfl

theorem lookupEnt_modifyEnt (l : List (String × MEntity)) (i : String)
    (f : MEntity → MEntity) :
    lookupEnt (modifyEnt l i f) i = (lookupEnt l i).map f := by
  induction l with
  | nil => rfl
  | cons p rest ih =>
    rcases p with ⟨k, v⟩
    by_cases h : k = i
    · subst h
      simp only [modifyEnt, if_pos rfl]
      simp [lookupEnt]
    · simp only [modifyEnt, if_neg h]
      simp [lookupEnt, h, ih]

theorem log_event_entities (s : StateManager) (now : ℚ) (ty : String)
    (eid : Option String) : (s.log_event now ty eid).entities = s.entities := by
  unfold StateManager.log_event
  rfl

theorem lookupEnt_storeEnt (l : List (String × MEntity)) (i : String)
    (m : MEntity) : lookupEnt (storeEnt l i m) i = some m := by
  induction l with
  | nil => simp [storeEnt, lookupEnt]
  | cons p rest ih =>
    rcases p with ⟨k, v⟩
    by_cases h : k = i
    · subst h
      simp only [storeEnt, if_pos rfl]
      simp [lookupEnt]
    · simp only [storeEnt, if_neg h]
      simp [lookupEnt, h, ih]

theorem log_event_mem (s : StateManager) (now : ℚ) (ty : String)
    (eid : Option String) :
    (⟨now, ty, eid⟩ : Event) ∈ (s.log_event now ty eid).events := by
  unfold StateManager.log_event
  dsimp only
  have hle : (s.events ++ [(⟨now, ty, eid⟩ : Event)]).length - 1000
      ≤ s.events.length := by
    rw [List.length_append]
    simp only [List.length_cons, List.length_nil]
    omega
  rw [List.drop_append_of_le_length hle]
  simp

theorem take_damage_one_destroyed (e : Entity) (h : e.health ≤ 1) :
    (e.take_damage 1).destroyed = true := by
  unfold Entity.take_damage
  dsimp only
  rw [if_pos (max_le le_rfl (by linarith))]

/-- C5 (confirmed): a live drone in `kamikaze` mode with kamikaze enabled
and a live assigned target, whose distance to that target (after this
tick's physics step) is within the engagement range, destroys the target
and itself within the same `update` call and logs a `kamikaze_attack`
event. -/
theorem C5_kamikaze_same_tick (tr : Trig) (rnd : DroneRand) (now dt : ℚ)
    (s : StateManager) (e : Entity) (d : DroneExt) (tid : String) (te : MEntity)
    (hmode : e.current_mode = "kamikaze")
    (halive : e.destroyed = false)
    (hen : d.kamikaze_enabled = true)
    (htid : d.target_entity_id = some tid)
    (htne : tid ≠ "")
    (hlook : lookupEnt s.entities tid = some te)
    (htalive : te.core.destroyed = false)
    (hth : te.core.health ≤ 1)
    (heh : e.health ≤ 1)
    (hdist : (Entity.update now dt e).position.distance_to te.core.position
      ≤ d.engagement_range) :
    ((Drone.update tr rnd now dt s e d).1.1.destroyed = true) ∧
    ((lookupEnt (Drone.update tr rnd now dt s e d).2.entities tid).map
        (fun m => m.core.destroyed) = some true) ∧
    (∃ ev ∈ (Drone.update tr rnd now dt s e d).2.events,
      ev.event_type = "kamikaze_attack") := by
  have hh := Entity.update_health now dt e
  have hp := Entity.update_proj now dt e
  unfold Drone.update
  dsimp only
  rw [hh.2, halive, hp.1, hmode]
  simp only [Bool.false_eq_true, if_false]
  rw [if_neg (show ¬("kamikaze" = "random_search") by decide),
      if_neg (show ¬("kamikaze" = "follow_target") by decide),
      if_neg (show ¬("kamikaze" = "follow_teammate") by decide),
      if_neg (show ¬("kamikaze" = "waypoint_mode") by decide)]
  simp only [if_true]
  unfold Drone.update_kamikaze
  dsimp only
  rw [hen, htid]
  have hem : tid.isEmpty = false := by
    rcases hbool : tid.isEmpty with _ | _
    · rfl
    · exact absurd ((String.isEmpty_iff tid).mp hbool) htne
  have htr : truthy (some tid) = true := by simp [truthy, hem]
  rw [htr]
  simp only [Bool.not_true, Bool.false_eq_true, if_false, Option.getD_some]
  unfold StateManager.get_entity
  rw [hlook]
  dsimp only
  rw [htalive]
  simp only [Bool.not_false, if_true]
  rw [if_pos (by simpa using hdist)]
  refine ⟨?_, ?_, ?_⟩
  · apply take_damage_one_destroyed
    dsimp only
    rw [hh.1]
    exact heh
  · rw [log_event_entities, lookupEnt_modifyEnt, hlook]
    simp only [Option.map_some']
    unfold MEntity.take_damage
    rw [MEntity.core_withCore]
    rw [take_damage_one_destroyed _ hth]
  · exact ⟨_, log_event_mem _ _ _ _, rfl⟩

/-- Concrete stored target for the C5 witness: alive at `(6, 8, 0)`. -/
def c5target : MEntity :=
  .target (Target.init "t1" ⟨6, 8, 0⟩ 0).1 (Target.init "t1" ⟨6, 8, 0⟩ 0).2

/-- Concrete world for the C5 witness. -/
def c5world : StateManager :=
  { StateManager.empty with entities := [("t1", c5target)] }

/-- Concrete kamikaze drone core for the C5 witness (at the origin,
8–6–10 triangle distance 10 to the target = its engagement range). -/
def c5drone : Entity :=
  { (Drone.init "d1" ⟨0, 0, 0⟩ 0).1 with current_mode := "kamikaze" }

/-- Concrete drone extension for the C5 witness (target assigned). -/
def c5droneExt : DroneExt :=
  { (Drone.init "d1" ⟨0, 0, 0⟩ 0).2 with target_entity_id := some "t1" }

/-- Witness for C5: the concrete drone and target are both destroyed and
the `kamikaze_attack` event is logged within one update. -/
theorem C5_kamikaze_same_tick_witness :
    ((Drone.update trigW ⟨0, 0, 0⟩ 0 1 c5world c5drone c5droneExt).1.1.destroyed
      = true) ∧
    ((lookupEnt (Drone.update trigW ⟨0, 0, 0⟩ 0 1 c5world c5drone
        c5droneExt).2.entities "t1").map (fun m => m.core.destroyed)
      = some true) ∧
    (∃ ev ∈ (Drone.update trigW ⟨0, 0, 0⟩ 0 1 c5world c5drone
        c5droneExt).2.events, ev.event_type = "kamikaze_attack") :=
  C5_kamikaze_same_tick trigW ⟨0, 0, 0⟩ 0 1 c5world c5drone c5droneExt "t1"
    c5target rfl rfl rfl rfl (by decide)
    (by with_unfolding_all decide) rfl
    (by with_unfolding_all decide) (by with_unfolding_all decide)
    (by with_unfolding_all decide)

/-- The stored detection count of a target entity (0 for other kinds). -/
def MEntity.detCount : MEntity → ℕ
  | .target _ tx => tx.detection_count
  | _ => 0

/-- Concrete drone for the C4 counterexample (at the origin,
detection radius 150). -/
def c4drone : MEntity :=
  .drone (Drone.init "d2" ⟨0, 0, 0⟩ 0).1 (Drone.init "d2" ⟨0, 0, 0⟩ 0).2

/-- Concrete target for the C4 counterexample: alive, in range (distance
50 ≤ 150), ALREADY detected, with detection count 1 and confidence 0.8. -/
def c4target : MEntity :=
  .target { (Target.init "t2" ⟨30, 40, 0⟩ 0).1 with detected := true }
    { (Target.init "t2" ⟨30, 40, 0⟩ 0).2 with
        detection_count := 1, confidence := 8/10 }

/-- Concrete world for the C4 counterexample. -/
def c4world : StateManager :=
  { StateManager.empty with entities := [("d2", c4drone), ("t2", c4target)] }

/-- C4 counterexample: a live drone × live already-detected target pair
within detection radius goes through a full detection cycle and the
target's detection count stays 1 — it is NOT incremented on re-detection
(the engine calls `mark_detected` only on the transition into detected),
contradicting the claim that the count increments on every subsequent
re-detection while in range. -/
theorem C4_redetection_no_increment :
    (c4drone.core.destroyed = false) ∧
    (c4target.core.destroyed = false) ∧
    (c4target.core.detected = true) ∧
    (c4drone.core.position.distance_to c4target.core.position
      ≤ c4drone.core.detection_radius) ∧
    (c4target.detCount = 1) ∧
    ((lookupEnt (detectionCycle 0 c4world).entities "t2").map MEntity.detCount
      = some 1) ∧
    ¬((lookupEnt (detectionCycle 0 c4world).entities "t2").map MEntity.detCount
      = some 2) := by
  with_unfolding_all decide

/-- C4 (amended): every detection cycle is exactly the fold of the per-pair
check `detectPairStep` over the drone list × target list (first conjunct,
definitional), and for EVERY world state and every stored live drone × live
target pair within the drone's detection radius, the per-pair check acts
only on the transition into the detected state: an undetected target gets
`detected = true`, confidence raised to `max(old, 0.8)`, detection count
SET to 1, timestamps refreshed, and one `target_detected` event is
appended; a pair whose target is already detected leaves the whole world
state completely unchanged — no count increment, no confidence update, no
event.  Because the second conjunct holds at every intermediate world, it
also covers within-cycle re-detection: once one drone has marked a target,
every later pair involving that target in the same cycle is a no-op. -/
theorem C4_detection_cycle_amended :
    (∀ (now : ℚ) (s : StateManager),
      detectionCycle now s
        = (s.get_entities_by_type "drone").foldl
            (fun acc dp => (s.get_entities_by_type "target").foldl
              (fun acc2 tp => detectPairStep now dp.1 tp.1 acc2) acc) s) ∧
    (∀ (now : ℚ) (did tid : String) (s : StateManager) (dm : MEntity)
      (te : Entity) (tx : TargetExt),
      lookupEnt s.entities did = some dm →
      lookupEnt s.entities tid = some (.target te tx) →
      dm.core.destroyed = false →
      te.destroyed = false →
      dm.core.position.distance_to te.position ≤ dm.core.detection_radius →
      (te.detected = false →
        detectPairStep now did tid s
          = StateManager.log_event
              { s with
                entities :=
                  storeEnt s.entities tid
                    (.target { te with detected := true }
                      { tx with
                          detection_time := now
                          detection_count := 1
                          confidence := max tx.confidence (8/10)
                          last_seen_time := now }) }
              now "target_detected" (some tid)) ∧
      (te.detected = true → detectPairStep now did tid s = s)) := by
  constructor
  · intro now s
    rfl
  · intro now did tid s dm te tx hld hlt hddes htdes hrange
    unfold detectPairStep
    rw [hld, hlt]
    dsimp only
    rw [hddes, htdes]
    simp only [Bool.false_eq_true, if_false]
    rw [if_pos hrange]
    constructor
    · intro hdet
      rw [hdet]
      simp only [Bool.not_false, if_true]
      unfold Target.mark_detected
      rw [hdet]
      simp only [Bool.not_false, if_true]
      rw [htdes]
    · intro hdet
      rw [hdet]
      simp only [Bool.not_true, Bool.false_eq_true, if_false]

/-- Core of the fresh (undetected) target for the C4 witness. -/
def c4freshTargetCore : Entity := (Target.init "t3" ⟨30, 40, 0⟩ 0).1

/-- Extension of the fresh (undetected) target for the C4 witness. -/
def c4freshTargetExt : TargetExt := (Target.init "t3" ⟨30, 40, 0⟩ 0).2

/-- Concrete world for the C4 witness: one live drone, one live undetected
target at distance 50 ≤ detection radius 150. -/
def c4worldFresh : StateManager :=
  { StateManager.empty with
    entities := [("d2", c4drone),
                 ("t3", .target c4freshTargetCore c4freshTargetExt)] }

/-- Witness for C4 (amended): the per-pair check on the concrete fresh
pair marks the target detected with count 1, confidence `max 0 0.8`,
timestamps 7, and appends the `target_detected` event. -/
theorem C4_detection_cycle_amended_witness :
    detectPairStep 7 "d2" "t3" c4worldFresh
      = StateManager.log_event
          { c4worldFresh with
            entities :=
              storeEnt c4worldFresh.entities "t3"
                (.target { c4freshTargetCore with detected := true }
                  { c4freshTargetExt with
                      detection_time := 7
                      detection_count := 1
                      confidence := max c4freshTargetExt.confidence (8/10)
                      last_seen_time := 7 }) }
          7 "target_detected" (some "t3") :=
  (C4_detection_cycle_amended.2 7 "d2" "t3" c4worldFresh c4drone
    c4freshTargetCore c4freshTargetExt rfl rfl rfl rfl
    (by with_unfolding_all decide)).1 rfl

theorem log_event_fields (s : StateManager) (now : ℚ) (ty : String)
    (eid : Option String) :
    (s.log_event now ty eid).selected_entities = s.selected_entities ∧
    (s.log_event now ty eid).simulation_running = s.simulation_running ∧
    (s.log_event now ty eid).simulation_speed = s.simulation_speed ∧
    (s.log_event now ty eid).simulation_time = s.simulation_time := by
  unfold StateManager.log_event
  exact ⟨rfl, rfl, rfl, rfl⟩

theorem loadEntitiesAux_error_fields (now : ℚ) (gen : ℕ → String) :
    ∀ (l : List (String × EntityData)) (k : ℕ) (s sErr : StateManager),
      loadEntitiesAux now gen k l s = .error sErr →
      sErr.selected_entities = s.selected_entities ∧
      sErr.simulation_running = s.simulation_running ∧
      sErr.simulation_speed = s.simulation_speed ∧
      sErr.simulation_time = s.simulation_time := by
  intro l
  induction l with
  | nil =>
    intro k s sErr h
    simp [loadEntitiesAux] at h
  | cons p rest ih =>
    intro k s sErr h
    rcases p with ⟨eid, ed⟩
    unfold loadEntitiesAux at h
    dsimp only at h
    split_ifs at h with hty
    · cases hp : parseEntityByType (ed.entity_type.getD "entity") ed (gen k) now with
      | error msg =>
        rw [hp] at h
        dsimp only at h
        cases h
        exact ⟨rfl, rfl, rfl, rfl⟩
      | ok m =>
        rw [hp] at h
        dsimp only at h
        exact ih (k + 1) { s with entities := storeEnt s.entities eid m } sErr h
    · exact ih (k + 1) s sErr h

/-- C2 (amended): `load_state_snapshot` is NOT all-or-nothing.  On every
failing input it returns `False` (the error is logged as an event), but the
selection list has already been cleared and the entity map replaced by the
partial parse; only the simulation flags keep their prior values (they are
assigned after the entity loop, which is the only part that can raise). -/
theorem C2_load_failure_not_all_or_nothing (s : StateManager) (now : ℚ)
    (gen : ℕ → String) (snap : Snapshot)
    (h : (s.load_state_snapshot now gen snap).1 = false) :
    (s.load_state_snapshot now gen snap).2.selected_entities = [] ∧
    (s.load_state_snapshot now gen snap).2.simulation_running
      = s.simulation_running ∧
    (s.load_state_snapshot now gen snap).2.simulation_speed
      = s.simulation_speed ∧
    (s.load_state_snapshot now gen snap).2.simulation_time
      = s.simulation_time := by
  unfold StateManager.load_state_snapshot at h ⊢
  dsimp only at h ⊢
  cases hm : loadEntitiesAux now gen 0 (snap.entities.getD [])
      { s with entities := [], selected_entities := [] } with
  | error sErr =>
    dsimp only at h ⊢
    have hf := loadEntitiesAux_error_fields now gen _ _ _ _ hm
    have hl := log_event_fields sErr now "state_load_error" none
    refine ⟨?_, ?_, ?_, ?_⟩
    · rw [hl.1, hf.1]
    · rw [hl.2.1, hf.2.1]
    · rw [hl.2.2.1, hf.2.2.1]
    · rw [hl.2.2.2, hf.2.2.2]
  | ok s2 =>
    rw [hm] at h
    simp at h

/-- Pre-existing live state for the C2 counterexample: one entity, one
selected id. -/
def c2state : StateManager :=
  { StateManager.empty with
    entities := [("keep", .base (Entity.init "keep" ⟨1, 1, 1⟩ 0))],
    selected_entities := ["keep"] }

/-- A malformed snapshot: the single entity record's `position` dict carries
the unexpected key `w`, so `Vector3(**...)` raises `TypeError` inside the
load loop. -/
def c2badSnap : Snapshot :=
  { entities := some [("bad",
      { EntityData.empty with position := some ⟨[("w", 1)]⟩ })]
    selected_entities := none
    simulation_running := none
    simulation_speed := none
    simulation_time := none }

/-- C2 counterexample: loading the malformed snapshot fails (returns
`False`), yet the live world is NOT what it was before the call — the
entity map and the selection list have been cleared — refuting the
all-or-nothing claim. -/
theorem C2_failed_load_overwrites_state :
    ((c2state.load_state_snapshot 3 (fun _ => "gen-id") c2badSnap).1 = false) ∧
    ¬((c2state.load_state_snapshot 3 (fun _ => "gen-id") c2badSnap).2.entities
      = c2state.entities) ∧
    ¬((c2state.load_state_snapshot 3 (fun _ => "gen-id")
        c2badSnap).2.selected_entities = c2state.selected_entities) := by
  with_unfolding_all decide

/-- Witness for C2 (amended): applied to the concrete failing load. -/
theorem C2_load_failure_not_all_or_nothing_witness :
    (c2state.load_state_snapshot 3 (fun _ => "gen-id")
        c2badSnap).2.selected_entities = [] ∧
    (c2state.load_state_snapshot 3 (fun _ => "gen-id")
        c2badSnap).2.simulation_running = c2state.simulation_running ∧
    (c2state.load_state_snapshot 3 (fun _ => "gen-id")
        c2badSnap).2.simulation_speed = c2state.simulation_speed ∧
    (c2state.load_state_snapshot 3 (fun _ => "gen-id")
        c2badSnap).2.simulation_time = c2state.simulation_time :=
  C2_load_failure_not_all_or_nothing c2state 3 (fun _ => "gen-id") c2badSnap
    (by with_unfolding_all decide)

instance {ε α : Type} [DecidableEq ε] [DecidableEq α] :
    DecidableEq (Except ε α) := fun a b =>
  match a, b with
  | .error x, .error y =>
    if h : x = y then isTrue (congrArg Except.error h)
    else isFalse (fun hc => h (Except.error.inj hc))
  | .ok x, .ok y =>
    if h : x = y then isTrue (congrArg Except.ok h)
    else isFalse (fun hc => h (Except.ok.inj hc))
  | .error _, .ok _ => isFalse (fun hc => Except.noConfusion hc)
  | .ok _, .error _ => isFalse (fun hc => Except.noConfusion hc)

/-- C3 (code bug): `create_entity` forwards `**kwargs` to constructors whose
signature is only `(entity_id, position)`, so any non-empty props bag —
exactly what `spawn_test_scenario` enqueues (`current_mode=...`, `role=...`)
— raises `TypeError` before the dead props-application loop, and the
uncaught exception propagates out of `_process_spawn_queue`; only an empty
bag creates the entity.  The first two conjuncts evaluate the failing
input; the third shows the same call with an empty bag returning the
created entity. -/
theorem C3_create_entity_props_raises :
    (StateManager.empty.create_entity 0 "drone" (some "drone-AB1") "uuid-1"
        (some ⟨3, 50, 4⟩) [("current_mode", .pStr "random_search")]
      = .error "TypeError: unexpected keyword argument") ∧
    (processSpawnQueue 0 (fun _ => "uuid-1") 0
        [⟨"drone", some "drone-AB1", ⟨3, 50, 4⟩,
          [("current_mode", .pStr "random_search")]⟩] StateManager.empty
      = .error "TypeError: unexpected keyword argument") ∧
    ((StateManager.empty.create_entity 0 "drone" (some "drone-AB1") "uuid-1"
        (some ⟨3, 50, 4⟩) []).map (fun p => p.1.map (fun m => m.core.id))
      = .ok (some "drone-AB1")) := by
  with_unfolding_all decide

/-- All three components finite. -/
def Vector3F.isFiniteVec (v : Vector3F) : Bool :=
  v.x.isFinite && v.y.isFinite && v.z.isFinite

theorem safe_float_finite (f : F) : (safe_float f).isFinite = true := by
  cases f <;> rfl

theorem sanitizeVec_finite (v : Vector3F) :
    (sanitizeVec v).isFiniteVec = true := by
  simp [sanitizeVec, Vector3F.isFiniteVec, safe_float_finite]

/-- Python float subtraction on the serialization-level float model (used
by `time.time() - last_seen_time`): NaN propagates, `inf - inf` is NaN,
an infinity minus a finite value keeps its sign. -/
def F.sub : F → F → F
  | .fin a, .fin b => .fin (a - b)
  | .nan, _ => .nan
  | .fin _, .nan => .nan
  | .pinf, .nan => .nan
  | .ninf, .nan => .nan
  | .pinf, .pinf => .nan
  | .pinf, .fin _ => .pinf
  | .pinf, .ninf => .pinf
  | .ninf, .ninf => .nan
  | .ninf, .fin _ => .ninf
  | .ninf, .pinf => .ninf
  | .fin _, .pinf => .ninf
  | .fin _, .ninf => .pinf

/-- The floating-point attributes of a `Target`'s subclass extension as
arbitrary Python floats. -/
structure TargetFloats where
  observed_velocity : Vector3F
  last_seen_time : F
  confidence : F
  patrol_speed : F
  turn_rate : F
  approach_threshold : F
  detection_time : F
deriving DecidableEq

/-- Source: `Target.get_time_since_detection` — returns `float('inf')`
whenever `last_seen_time == 0` (i.e. for every never-detected target),
else `time.time() - last_seen_time` (`now` is the always-finite
`time.time()` value). -/
def Target.get_time_since_detection (now : ℚ) (t : TargetFloats) : F :=
  if t.last_seen_time = .fin 0 then .pinf
  else F.sub (.fin now) t.last_seen_time

/-- The floating-point fields `Target.to_dict` adds on top of the base
record. -/
structure TargetDictFloats where
  observed_velocity : Vector3F
  last_seen_time : F
  confidence : F
  patrol_speed : F
  turn_rate : F
  approach_threshold : F
  detection_time : F
  time_since_detection : F
deriving DecidableEq

/-- Source: the float fields of `Target.to_dict`, exactly as the source
builds them: every one passes through `safe_float` EXCEPT
`time_since_detection`, which is the raw `get_time_since_detection()`
value. -/
def Target.to_dict_floats (now : ℚ) (t : TargetFloats) : TargetDictFloats :=
  { observed_velocity := sanitizeVec t.observed_velocity
    last_seen_time := safe_float t.last_seen_time
    confidence := safe_float t.confidence
    patrol_speed := safe_float t.patrol_speed
    turn_rate := safe_float t.turn_rate
    approach_threshold := safe_float t.approach_threshold
    detection_time := safe_float t.detection_time
    time_since_detection := Target.get_time_since_detection now t }

/-- The floating-point fields `Drone.to_dict` adds on top of the base
record, as arbitrary internal Python floats. -/
structure DroneFloats where
  follow_distance : F
  hunting_range : F
  turn_rate : F
  approach_threshold : F
  patrol_area_size : F
  engagement_range : F
deriving DecidableEq

/-- Source: the float fields of `Drone.to_dict` — every one passes through
`safe_float`. -/
def Drone.to_dict_floats (d : DroneFloats) : DroneFloats :=
  { follow_distance := safe_float d.follow_distance
    hunting_range := safe_float d.hunting_range
    turn_rate := safe_float d.turn_rate
    approach_threshold := safe_float d.approach_threshold
    patrol_area_size := safe_float d.patrol_area_size
    engagement_range := safe_float d.engagement_range }

/-- C7 (amended): every floating-point field of an entity's canonical
serialized form that passes through `safe_float` is finite for all
internal float values — that is, every float field EXCEPT the raw-copied
ones: the base record's `created_time` and `last_update_time` (finite only
when the stored timestamps are), and `Target.to_dict`'s
`time_since_detection`, which is `+inf` for every never-detected target
(`last_seen_time == 0`) even when every internal field is finite.  The
drone extension's float fields are all sanitized. -/
theorem C7_serialization_sanitized_except_raw :
    (∀ e : EntityFloats,
      ((Entity.to_dict_floats e).position.isFiniteVec = true) ∧
      ((Entity.to_dict_floats e).heading.isFinite = true) ∧
      ((Entity.to_dict_floats e).velocity.isFiniteVec = true) ∧
      ((Entity.to_dict_floats e).max_speed.isFinite = true) ∧
      ((Entity.to_dict_floats e).detection_radius.isFinite = true) ∧
      ((Entity.to_dict_floats e).collision_radius.isFinite = true) ∧
      ((Entity.to_dict_floats e).health.isFinite = true) ∧
      ((Entity.to_dict_floats e).target_position.isFiniteVec = true) ∧
      ((Entity.to_dict_floats e).waypoints.all Vector3F.isFiniteVec = true) ∧
      ((Entity.to_dict_floats e).created_time = e.created_time) ∧
      ((Entity.to_dict_floats e).last_update_time = e.last_update_time)) ∧
    (∀ (now : ℚ) (t : TargetFloats),
      ((Target.to_dict_floats now t).observed_velocity.isFiniteVec = true) ∧
      ((Target.to_dict_floats now t).last_seen_time.isFinite = true) ∧
      ((Target.to_dict_floats now t).confidence.isFinite = true) ∧
      ((Target.to_dict_floats now t).patrol_speed.isFinite = true) ∧
      ((Target.to_dict_floats now t).turn_rate.isFinite = true) ∧
      ((Target.to_dict_floats now t).approach_threshold.isFinite = true) ∧
      ((Target.to_dict_floats now t).detection_time.isFinite = true) ∧
      ((Target.to_dict_floats now t).time_since_detection
        = Target.get_time_since_detection now t) ∧
      (t.last_seen_time = .fin 0 →
        (Target.to_dict_floats now t).time_since_detection = F.pinf)) ∧
    (∀ d : DroneFloats,
      ((Drone.to_dict_floats d).follow_distance.isFinite = true) ∧
      ((Drone.to_dict_floats d).hunting_range.isFinite = true) ∧
      ((Drone.to_dict_floats d).turn_rate.isFinite = true) ∧
      ((Drone.to_dict_floats d).approach_threshold.isFinite = true) ∧
      ((Drone.to_dict_floats d).patrol_area_size.isFinite = true) ∧
      ((Drone.to_dict_floats d).engagement_range.isFinite = true)) := by
  refine ⟨?_, ?_, ?_⟩
  · intro e
    unfold Entity.to_dict_floats
    refine ⟨sanitizeVec_finite _, safe_float_finite _, sanitizeVec_finite _,
      safe_float_finite _, safe_float_finite _, safe_float_finite _,
      safe_float_finite _, sanitizeVec_finite _, ?_, rfl, rfl⟩
    simp [List.all_eq_true, sanitizeVec_finite]
  · intro now t
    refine ⟨sanitizeVec_finite _, safe_float_finite _, safe_float_finite _,
      safe_float_finite _, safe_float_finite _, safe_float_finite _,
      safe_float_finite _, rfl, ?_⟩
    intro h
    unfold Target.to_dict_floats Target.get_time_since_detection
    rw [if_pos h]
  · intro d
    exact ⟨safe_float_finite _, safe_float_finite _, safe_float_finite _,
      safe_float_finite _, safe_float_finite _, safe_float_finite _⟩

/-- Internal target-extension floats for the C7 witness and counterexample:
every field finite, `last_seen_time = 0` (never detected). -/
def c7freshTarget : TargetFloats :=
  { observed_velocity := ⟨.fin 0, .fin 0, .fin 0⟩
    last_seen_time := .fin 0
    confidence := .fin 0
    patrol_speed := .fin 5
    turn_rate := .fin 1
    approach_threshold := .fin 10
    detection_time := .fin 0 }

/-- Witness for C7 (amended): a never-detected target with all-finite
internals serializes `time_since_detection = +inf`. -/
theorem C7_serialization_sanitized_except_raw_witness :
    (Target.to_dict_floats 5 c7freshTarget).time_since_detection = F.pinf :=
  (C7_serialization_sanitized_except_raw.2.1 5
    c7freshTarget).2.2.2.2.2.2.2.2 rfl

/-- Internal entity floats for the C7 counterexample: every field finite
except `created_time`, which holds `+inf`. -/
def c7entity : EntityFloats :=
  { position := ⟨.fin 0, .fin 0, .fin 0⟩
    heading := .fin 0
    velocity := ⟨.fin 0, .fin 0, .fin 0⟩
    max_speed := .fin 10
    detection_radius := .fin 100
    collision_radius := .fin 5
    health := .fin 1
    target_position := ⟨.fin 0, .fin 0, .fin 0⟩
    waypoints := []
    created_time := .pinf
    last_update_time := .fin 0 }

/-- C7 counterexample: `to_dict` copies `created_time` without
`safe_float`, so an entity whose internal `created_time` is `+inf`
serializes a non-finite float field; moreover `Target.to_dict` emits
`time_since_detection` raw, which is `+inf` for a never-detected target
whose internal fields are ALL finite — both refute the claim that every
float field of the serialized form is finite for any internal values. -/
theorem C7_infinite_timestamp_in_dict :
    ((Entity.to_dict_floats c7entity).created_time = F.pinf) ∧
    ((Entity.to_dict_floats c7entity).created_time.isFinite = false) ∧
    (c7freshTarget.last_seen_time.isFinite = true) ∧
    ((Target.to_dict_floats 5 c7freshTarget).time_since_detection = F.pinf) ∧
    ((Target.to_dict_floats 5
        c7freshTarget).time_since_detection.isFinite = false) := by
  with_unfolding_all decide

/-- Concrete drone for the C1 counterexample: in `waypoint_mode`, heading
0, at the origin, steering toward `(40, 0, 30)` (distance 50, so the
horizontal speed saturates at `max_speed = 25`; real
`atan2(0, 4/5) = 0`, `cos 0 = 1`, `sin 0 = 0`, as `trigW` gives). -/
def c1drone : Entity :=
  { (Drone.init "d3" ⟨0, 0, 0⟩ 0).1 with
      current_mode := "waypoint_mode", target_position := ⟨40, 0, 30⟩ }

/-- Drone extension for the C1 counterexample (the `__init__` defaults). -/
def c1ext : DroneExt := (Drone.init "d3" ⟨0, 0, 0⟩ 0).2

/-- C1 counterexample: after one full `Drone.update` in `waypoint_mode`,
the steering sets velocity `(25, 0, 7.5)` — horizontal magnitude exactly
`max_speed` plus the vertical component on top — whose magnitude exceeds
`max_speed = 25` (squared: `2725/4 > 625`), refuting the claim that the
velocity magnitude never exceeds `max_speed` after any update. -/
theorem C1_velocity_exceeds_max_speed :
    ((Drone.update trigW ⟨0, 0, 0⟩ 0 1 StateManager.empty c1drone
        c1ext).1.1.max_speed = 25) ∧
    ((Drone.update trigW ⟨0, 0, 0⟩ 0 1 StateManager.empty c1drone
        c1ext).1.1.velocity = ⟨25, 0, 15/2⟩) ∧
    ((Drone.update trigW ⟨0, 0, 0⟩ 0 1 StateManager.empty c1drone
          c1ext).1.1.velocity.sq_magnitude
      > (Drone.update trigW ⟨0, 0, 0⟩ 0 1 StateManager.empty c1drone
          c1ext).1.1.max_speed ^ 2) ∧
    ((Drone.update trigW ⟨0, 0, 0⟩ 0 1 StateManager.empty c1drone
          c1ext).1.1.velocity.magnitude
      > (Drone.update trigW ⟨0, 0, 0⟩ 0 1 StateManager.empty c1drone
          c1ext).1.1.max_speed) := by
  with_unfolding_all decide

theorem sq_magnitude_smul (v : Vector3) (c : ℚ) :
    (v.smul c).sq_magnitude = v.sq_magnitude * c ^ 2 := by
  unfold Vector3.smul Vector3.sq_magnitude
  ring

theorem normalize_z_sq_le_one (v : Vector3) (h : 0 < v.magnitude) :
    (v.normalize).z ^ 2 ≤ 1 := by
  unfold Vector3.normalize
  rw [if_neg h.ne']
  dsimp only
  have hm2 : v.sq_magnitude ≤ v.magnitude ^ 2 :=
    le_sq_ratSqrt _ (sq_magnitude_nonneg v)
  have hz2 : v.z ^ 2 ≤ v.sq_magnitude := by
    unfold Vector3.sq_magnitude
    nlinarith [sq_nonneg v.x, sq_nonneg v.y]
  rw [div_pow]
  rw [div_le_one (by positivity)]
  nlinarith

theorem steer_sq_bound (tr : Trig) (hpyth : PythTrig tr) (θ dz s ms : ℚ)
    (hdz : dz ^ 2 ≤ 1) (hs0 : 0 ≤ s) (hs1 : s ≤ ms) :
    (s * tr.cos θ) ^ 2 + (s * tr.sin θ) ^ 2 + (dz * s * (1/2)) ^ 2
      ≤ (5/4) * ms ^ 2 := by
  have key : s ^ 2 * (tr.cos θ ^ 2 + tr.sin θ ^ 2) = s ^ 2 := by
    rw [hpyth θ]; ring
  have hss : s ^ 2 ≤ ms ^ 2 := by nlinarith
  have hdzs : dz ^ 2 * s ^ 2 ≤ s ^ 2 := by nlinarith [sq_nonneg s]
  nlinarith [key, hss, hdzs, sq_nonneg s]

/-- C1 (amended): the `≤ max_speed` clamp holds right after the base
physics step of `Entity.update` (for every live entity with nonnegative
`max_speed`), but a drone's `_move_towards_target`, which runs after it,
may overwrite the velocity: the velocity it leaves behind has squared
magnitude at most `max(old, (5/4)·max_speed²)` — horizontal part at most
`max_speed`, plus a vertical component of up to half the speed — so after
`Drone.update` the bound is `√(5/4)·max_speed`, not `max_speed` (the
counterexample attains it). -/
theorem C1_velocity_bound_amended :
    (∀ (now dt : ℚ) (e : Entity), e.destroyed = false → 0 ≤ e.max_speed →
      (Entity.update now dt e).velocity.sq_magnitude ≤ e.max_speed ^ 2) ∧
    (∀ (tr : Trig), PythTrig tr → ∀ (dt : ℚ) (e : Entity) (d : DroneExt),
      0 ≤ e.max_speed →
      (Drone.move_towards_target tr dt e d).velocity.sq_magnitude
        ≤ max e.velocity.sq_magnitude ((5/4) * e.max_speed ^ 2)) := by
  constructor
  · intro now dt e hdes hms
    unfold Entity.update
    dsimp only
    rw [hdes]
    simp only [Bool.false_eq_true, if_false]
    split_ifs with hclamp
    · -- clamped: (normalize * max_speed)
      rw [sq_magnitude_smul]
      unfold Vector3.normalize
      by_cases hm : (e.velocity).magnitude = 0
      · rw [if_pos hm]
        have : (Vector3.mk 0 0 0).sq_magnitude = 0 := by
          unfold Vector3.sq_magnitude; ring
        rw [this]
        nlinarith
      · rw [if_neg hm]
        have hle : (e.velocity).sq_magnitude ≤ (e.velocity).magnitude ^ 2 :=
          le_sq_ratSqrt _ (sq_magnitude_nonneg _)
        have hmp : 0 < (e.velocity).magnitude :=
          lt_of_le_of_ne (ratSqrt_nonneg _) (Ne.symm hm)
        have hfrac : (Vector3.mk ((e.velocity).x / (e.velocity).magnitude)
            ((e.velocity).y / (e.velocity).magnitude)
            ((e.velocity).z / (e.velocity).magnitude)).sq_magnitude ≤ 1 := by
          unfold Vector3.sq_magnitude at hle ⊢
          rw [div_pow, div_pow, div_pow, div_add_div_same, div_add_div_same,
            div_le_one (by positivity)]
          exact hle
        nlinarith [hfrac, sq_magnitude_nonneg (Vector3.mk
          ((e.velocity).x / (e.velocity).magnitude)
          ((e.velocity).y / (e.velocity).magnitude)
          ((e.velocity).z / (e.velocity).magnitude))]
    · -- not clamped: magnitude ≤ max_speed already
      push_neg at hclamp
      exact sq_le_of_ratSqrt_le (sq_magnitude_nonneg _) hclamp
  · intro tr hpyth dt e d hms
    have hz := normalize_z_sq_le_one (e.target_position - e.position)
    have hm0 : (0:ℚ) ≤ (e.target_position - e.position).magnitude :=
      ratSqrt_nonneg _
    have hs0 : 0 ≤ min e.max_speed ((e.target_position - e.position).magnitude * 2) :=
      le_min hms (by linarith)
    have hs1 : min e.max_speed ((e.target_position - e.position).magnitude * 2)
        ≤ e.max_speed := min_le_left _ _
    unfold Drone.move_towards_target
    dsimp only
    split_ifs with h1 h2 h3 h4
    · -- approach decay: 0.8 * velocity
      rw [sq_magnitude_smul]
      have h0 := sq_magnitude_nonneg e.velocity
      have : e.velocity.sq_magnitude * (8/10) ^ 2 ≤ e.velocity.sq_magnitude := by
        nlinarith
      exact this.trans (le_max_left _ _)
    · refine le_trans ?_ (le_max_right _ _)
      unfold Vector3.sq_magnitude
      exact steer_sq_bound tr hpyth _ _ _ _ (hz h2) hs0 hs1
    · refine le_trans ?_ (le_max_right _ _)
      unfold Vector3.sq_magnitude
      exact steer_sq_bound tr hpyth _ _ _ _ (hz h2) hs0 hs1
    · refine le_trans ?_ (le_max_right _ _)
      unfold Vector3.sq_magnitude
      exact steer_sq_bound tr hpyth _ _ _ _ (hz h2) hs0 hs1
    · -- zero distance: velocity unchanged
      exact le_max_left _ _

/-- Witness for C1 (amended): the base clamp bound at a fresh entity and
the `(5/4)·max_speed²` steering bound at the counterexample drone. -/
theorem C1_velocity_bound_amended_witness :
    ((Entity.update 0 1 (Entity.init "w1" ⟨0, 0, 0⟩ 0)).velocity.sq_magnitude
      ≤ (Entity.init "w1" ⟨0, 0, 0⟩ 0).max_speed ^ 2) ∧
    ((Drone.move_towards_target trigW 1 c1drone c1ext).velocity.sq_magnitude
      ≤ max c1drone.velocity.sq_magnitude ((5/4) * c1drone.max_speed ^ 2)) :=
  ⟨C1_velocity_bound_amended.1 0 1 (Entity.init "w1" ⟨0, 0, 0⟩ 0) rfl
      (by with_unfolding_all decide),
   C1_velocity_bound_amended.2 trigW trigW_pyth 1 c1drone c1ext
      (by with_unfolding_all decide)⟩

end BGCS
